import Mathlib

/-!
Shallow embedding of the OpenYard SMS booking backend (openyard-hooks).

The definitions below are translated from the JavaScript sources:
  - src/sms/handler.js          (webhook ingress + inbound dispatch)
  - src/sms/states/index.js     (per-state handlers, first draft, the one
                                 imported by src/sms/handler.js)
  - src/payments/index.js       (createBooking, stripeWebhookHandler)
  - src/scheduler/index.js      (runDueReviewMessages, expireIdleConversations)
  - src/server.js               (computePricing)
  - src/unnamed/part_000        (db.js: logSms, updateConversation,
                                 deactivateActiveConversations)

Database access (Supabase) is modelled as explicit state passing over lists
of rows; external collaborators (lot queries, the stalls-left RPC, Stripe,
Twilio, wall-clock date helpers) are modelled as environment parameters so
that every code path of the handlers is represented.  The model is
error-free at the datastore layer: row reads and writes succeed, which is
the regime every claim speaks about.
-/

namespace OpenYard

/-! ## JavaScript primitive helpers

String operations are implemented by structural recursion over the
character list so that every definition evaluates inside the kernel
(`String.trim`, `String.splitOn` and friends are well-founded-recursive
and do not reduce). -/

def wsChar (c : Char) : Bool := c.isWhitespace

/-- `s.trim()` -/
def jsTrim (s : String) : String :=
  String.mk (((s.data.dropWhile wsChar).reverse.dropWhile wsChar).reverse)

/-- `s.toUpperCase()` (ASCII, the only case the inputs use) -/
def jsToUpper (s : String) : String := String.mk (s.data.map Char.toUpper)

/-- `s.toLowerCase()` (ASCII) -/
def jsToLower (s : String) : String := String.mk (s.data.map Char.toLower)

/-- `s.substring(0, n)` -/
def jsTake (n : Nat) (s : String) : String := String.mk (s.data.take n)

def wordsAux : List Char → List Char → List String
  | [], acc => if acc.isEmpty then [] else [String.mk acc.reverse]
  | c :: rest, acc =>
    if wsChar c then
      if acc.isEmpty then wordsAux rest []
      else String.mk acc.reverse :: wordsAux rest []
    else wordsAux rest (c :: acc)

/-- The whitespace-separated tokens of a string. -/
def wordsOf (s : String) : List String := wordsAux s.data []

/-- `parts.join(sep)` -/
def joinSep (sep : String) : List String → String
  | [] => ""
  | [x] => x
  | x :: xs => x ++ sep ++ joinSep sep xs

def splitSpaceAux : List Char → List Char → List (List Char)
  | [], acc => [acc.reverse]
  | c :: rest, acc =>
    if c = ' ' then acc.reverse :: splitSpaceAux rest []
    else splitSpaceAux rest (c :: acc)

/-- `s.split(" ")` -/
def splitSpace (s : String) : List String :=
  (splitSpaceAux s.data []).map String.mk

/-- Value of a list of decimal digit characters, most significant first. -/
def digitsVal (cs : List Char) : Nat :=
  cs.foldl (fun a c => a * 10 + (c.toNat - 48)) 0

/-- Parse the longest leading run of decimal digits; `none` when there is
none (JS `parseInt` returns `NaN` then). -/
def parseDigits (cs : List Char) : Option Nat :=
  let ds := cs.takeWhile (fun c => c.isDigit)
  if ds.isEmpty then none else some (digitsVal ds)

/-- Model of `parseInt(String(text).trim(), 10)` as used by the state
handlers: after trimming, an optional single `+` or `-` sign followed by
the longest run of decimal digits; `none` models `NaN`. -/
def jsParseInt (s : String) : Option Int :=
  match (jsTrim s).data with
  | [] => none
  | c :: rest =>
    if c = '+' then (parseDigits rest).map (fun n => (n : Int))
    else if c = '-' then (parseDigits rest).map (fun n => -(n : Int))
    else (parseDigits (c :: rest)).map (fun n => (n : Int))

/-- Modelled from the claim wording (not from the source): "the integer
obtained by base-10 parsing the longest leading digit prefix of the trimmed
text".  Used only to compare the claim against the code (`jsParseInt`). -/
def specLeadingDigitValue (s : String) : Option Nat :=
  parseDigits (jsTrim s).data

/-- JS truthiness of an optional integer column: `null`/`undefined` and `0`
are falsy. -/
def jsTruthyNat : Option Nat → Bool
  | none => false
  | some n => n != 0

/-- `x || d` for an optional integer column. -/
def orDefault (x : Option Nat) (d : Nat) : Nat :=
  if jsTruthyNat x then x.getD 0 else d

/-- `/^[A-Za-z]{2}$/.test s` -/
def isTwoAlpha (s : String) : Bool :=
  s.length == 2 && s.data.all (fun c => c.isAlpha)

/-- `raw.trim().replace(/\s+/g, " ")`: trim and collapse every whitespace
run to a single space (implemented by re-joining the whitespace-separated
tokens). -/
def cleanedOf (raw : String) : String := joinSep " " (wordsOf raw)

/-! ## Lots and pricing (src/server.js `computePricing`) -/

/-- A row of the read-only `lots` table (fields the embedded code reads). -/
structure Lot where
  id : Nat
  name : String
  lot_code : Option String := none
  region_label : Option String := none
  nightly_rate_cents : Option Nat := none
  weekly_rate_cents : Option Nat := none
  monthly_rate_cents : Option Nat := none
  review_url : Option String := none
  parking_instructions : Option String := none
  address_line1 : Option String := none
  address_line2 : Option String := none
  city : Option String := none
  state : Option String := none
  zip : Option String := none
  latitude : Option Int := none
  longitude : Option Int := none
deriving Repr, DecidableEq

/-- Output of `computePricing`. -/
structure Pricing where
  nightly_rate_cents : Nat
  weekly_rate_cents : Option Nat
  monthly_rate_cents : Option Nat
  subtotal_cents : Nat
  deposit_hold_cents : Nat
  total_cents : Nat
deriving Repr, DecidableEq

/-- src/server.js lines 687-711. -/
def computePricing (lot : Lot) (stayType : String) (nights : Nat) : Pricing :=
  let n := if nights = 0 then 1 else nights
  let nightly := orDefault lot.nightly_rate_cents 2500
  let subtotal0 := nightly * n
  let subtotal1 :=
    if stayType == "weekly" && jsTruthyNat lot.weekly_rate_cents then
      lot.weekly_rate_cents.getD 0
    else subtotal0
  let subtotal :=
    if stayType == "monthly" && jsTruthyNat lot.monthly_rate_cents then
      lot.monthly_rate_cents.getD 0
    else subtotal1
  let depositHold := 0
  { nightly_rate_cents := nightly
    weekly_rate_cents := lot.weekly_rate_cents
    monthly_rate_cents := lot.monthly_rate_cents
    subtotal_cents := subtotal
    deposit_hold_cents := depositHold
    total_cents := subtotal + depositHold }

/-! ## Location parsing (src/sms/states/index.js `parseCityState`) -/

/-- src/sms/states/index.js lines 26-39. -/
def parseCityState (raw : String) : Option String × Option String :=
  let cleaned := cleanedOf raw
  if cleaned = "" then (none, none)
  else
    let parts := splitSpace cleaned
    if parts.length = 1 then (some cleaned, none)
    else
      let last := parts.getLastD ""
      let st : Option String := if isTwoAlpha last then some (jsToUpper last) else none
      match st with
      | some s =>
        let city := joinSep " " parts.dropLast
        ((if jsTrim city = "" then none else some (jsTrim city)), some s)
      | none => (some cleaned, none)

/-! ## Data model -/

/-- `current_state` of a conversation (string-keyed in the source). -/
inductive ConvState where
  | awaiting_location_or_lot_code
  | awaiting_lot_choice
  | awaiting_name
  | awaiting_truck_type
  | awaiting_make_model
  | awaiting_plate
  | awaiting_stay_option
  | awaiting_custom_nights
  | awaiting_summary_confirmation
  | awaiting_payment
  | cancelled
  | expired
  | completed
deriving Repr, DecidableEq, Fintype

inductive Direction where
  | inbound
  | outbound
deriving Repr, DecidableEq

/-- A row of `conversations`.  `phone` is `driver_phone_e164`;
`last_inbound_at` is an epoch-millisecond timestamp. -/
structure Conversation where
  id : Nat
  phone : String
  current_state : ConvState
  is_active : Bool
  last_inbound_at : Int
  location_raw_input : String := ""
  lot_id : Option Nat := none
  driver_full_name : String := ""
  truck_type : String := ""
  truck_make_model : String := ""
  license_plate_raw : String := ""
  stay_type : String := ""
  nights : Nat := 0
  quoted_total_cents : Nat := 0
  booking_id : Option Nat := none
deriving Repr, DecidableEq

/-- A row of `bookings`. -/
structure Booking where
  id : Nat
  conversation_id : Nat
  lot_id : Nat
  phone : String
  driver_full_name : String
  truck_type : String
  truck_make_model : String
  license_plate_raw : String
  stay_type : String
  nights : Nat
  start_date : String
  end_date : String
  nightly_rate_cents : Nat
  weekly_rate_cents : Option Nat
  monthly_rate_cents : Option Nat
  subtotal_cents : Nat
  deposit_hold_cents : Nat
  total_cents : Nat
  currency : String
  status : String
  stripe_session_id : Option String := none
  stripe_payment_intent_id : Option String := none
  stripe_customer_id : Option String := none
  paid_at : Option Int := none
deriving Repr, DecidableEq

/-- A row of `scheduled_messages`.  `send_at`/`sent_at` are epoch
milliseconds. -/
structure ScheduledMessage where
  id : Nat
  booking_id : Nat
  lot_id : Nat
  phone : String
  driver_full_name : Option String
  message_type : String
  send_at : Int
  sent_at : Option Int := none
  last_error : Option String := none
deriving Repr, DecidableEq

/-- A row of `sms_messages` written by `logSms` (db.js). -/
structure SmsLog where
  conversation_id : Option Nat
  phone : String
  direction : Direction
  body : String
  raw : Option String
deriving Repr, DecidableEq

/-- One `twilioClient.messages.create` call. -/
structure SentText where
  toPhone : String
  body : String
deriving Repr, DecidableEq

/-- The datastore plus the observable outbound effects.  The
`conversations` list is kept newest-first, matching the source query
`order by created_at desc` (new rows are inserted at the head). -/
structure Db where
  conversations : List Conversation := []
  bookings : List Booking := []
  scheduled_messages : List ScheduledMessage := []
  smsLogs : List SmsLog := []
  sentTexts : List SentText := []
  alerts : List String := []
  nextConvId : Nat := 1
  nextBookingId : Nat := 1
  nextSchedId : Nat := 1
deriving Repr, DecidableEq

/-- External collaborators: lot queries, the stalls-left RPC, Stripe,
wall-clock date helpers, the rate limiter (utils/index.js, whose internals
are outside the embedded sources) and the outcome of Twilio sends in the
scheduler. -/
structure Env where
  lotsByCodeOrSlug : String → List Lot
  lotsByCityState : Option String → Option String → List Lot
  stallsLeft : Nat → Option Int
  lotById : Nat → Option Lot
  stripeCreateSession : Nat → Nat → String × String
  stripeRetrieve : String → Option String
  stripeRetrieveThrows : String → Bool
  computeReviewSendAt : Option Lot → Int
  rateLimited : String → Bool
  alertPhone : Option String
  serviceDayToday : String
  addDaysISO : String → Nat → String
  sendThrows : Nat → Bool
  sendErrMsg : String

/-! ## db.js primitives (src/unnamed/part_000) -/

/-- `logSms`: insert one `sms_messages` row; the raw provider payload is
stringified and truncated to 8000 characters. -/
def logSms (db : Db) (cid : Option Nat) (phone : String) (dir : Direction)
    (body : String) (raw : Option String) : Db :=
  { db with smsLogs := db.smsLogs ++
      [{ conversation_id := cid, phone := phone, direction := dir,
         body := body, raw := raw.map (jsTake 8000) }] }

/-- `updateConversation(id, fields)`: patch the row with that id.  Each
call site passes its concrete field patch as `f`. -/
def updateConv (db : Db) (id : Nat) (f : Conversation → Conversation) : Db :=
  { db with conversations :=
      db.conversations.map (fun c => if c.id == id then f c else c) }

/-- The per-row patch of `deactivateActiveConversations`. -/
def deactPatch (phone : String) (c : Conversation) : Conversation :=
  if c.phone == phone && c.is_active then
    { c with is_active := false, current_state := .cancelled }
  else c

/-- `deactivateActiveConversations(phone)`: every active conversation of
the phone becomes `is_active = false, current_state = 'cancelled'`. -/
def deactivateActiveConversations (db : Db) (phone : String) : Db :=
  { db with conversations := db.conversations.map (deactPatch phone) }

/-- `twilioClient.messages.create` -/
def sendText (db : Db) (toPhone body : String) : Db :=
  { db with sentTexts := db.sentTexts ++ [{ toPhone := toPhone, body := body }] }

/-- `notifyOwnerAlert` -/
def alertOwner (db : Db) (msg : String) : Db :=
  { db with alerts := db.alerts ++ [msg] }

/-- Latest active conversation of a phone
(`order by created_at desc limit 1` over the newest-first list). -/
def findActiveConversation (db : Db) (phone : String) : Option Conversation :=
  (db.conversations.filter (fun c => c.phone == phone && c.is_active)).head?

def findConversation (db : Db) (id : Nat) : Option Conversation :=
  db.conversations.find? (fun c => c.id == id)

/-! ## Small string helpers shared by the reply templates -/

/-- JS truthiness of an optional string column (`null` and `""` falsy). -/
def jsTruthyStr : Option String → Bool
  | none => false
  | some s => s != ""

/-- `x || d` for strings. -/
def strOr (x d : String) : String := if x = "" then d else x

/-- `x ? x : null` for an optional string column (empty string falsy). -/
def jsStrOpt : Option String → Option String
  | some s => if s ≠ "" then some s else none
  | none => none

/-- `lot.region_label ? " – " + lot.region_label : ""` -/
def regionSuffix (lot : Lot) : String :=
  if jsTruthyStr lot.region_label then " – " ++ lot.region_label.getD "" else ""

/-- `typeof stallsLeft === "number" && stallsLeft <= 0` gate (the RPC
result is `null` on error or unknown). -/
def stallsKnownNonpos : Option Int → Bool
  | some v => v ≤ 0
  | none => false

/-- `stallsLeft !== null ? "\nStalls left tonight: " + stallsLeft : ""` -/
def stallsSuffix : Option Int → String
  | some v => "\nStalls left tonight: " ++ toString v
  | none => ""

/-- `(cents / 100).toFixed(2)` for integer cents. -/
def centsToDollars (cents : Nat) : String :=
  toString (cents / 100) ++ "." ++
    (if cents % 100 < 10 then "0" else "") ++ toString (cents % 100)

/-- `Math.round(cents / 100)` for integer cents. -/
def roundDollars (cents : Nat) : Nat := (cents + 50) / 100

/-! ## State handlers (src/sms/states/index.js, lines 1-464) -/

def withCommandsFooter (mainText : String) : String :=
  mainText ++ "\n\nCommands:\nBOOK = new booking\nSUPPORT = help"

def soldOutMessage (lotName : String) : String :=
  "⚠️ " ++ strOr lotName "That lot" ++ " is sold out tonight.\n\n" ++
    "Reply with another city/state to see nearby lots, or text BOOK to start over."

/-- Reply announcing the chosen lot and asking for the driver name (shared
ending of the single-lot and chosen-from-list paths). -/
def bookingLotReply (lot : Lot) (stallsLeft : Option Int) : String :=
  "You’re booking: " ++ lot.name ++ regionSuffix lot ++ "." ++
    stallsSuffix stallsLeft ++ "\n\n" ++ "What’s your first and last name?"

/-- Lot list resolved for a location input: code/slug match first, then
city/state prefix search (`handleLocationState` steps 1-2). -/
def resolveLots (env : Env) (raw : String) : List Lot :=
  let lots := env.lotsByCodeOrSlug raw
  if lots.isEmpty then
    match parseCityState raw with
    | (some city, st) => env.lotsByCityState (some city) st
    | (none, _) => lots
  else lots

def locationNotFoundReply : String :=
  "I couldn\x27t find any lots near that.\n" ++
    "Try a city and state (e.g. \"Bozeman MT\" or \"Kansas City MO\")."

def handleLocationState (env : Env) (db : Db) (conv : Conversation)
    (text : String) : Db × String :=
  let raw := jsTrim text
  let db1 := updateConv db conv.id (fun c => { c with location_raw_input := raw })
  match resolveLots env raw with
  | [] => (db1, locationNotFoundReply)
  | [lot] =>
    let stallsLeft := env.stallsLeft lot.id
    if stallsKnownNonpos stallsLeft then (db1, soldOutMessage lot.name)
    else
      let db2 := updateConv db1 conv.id (fun c =>
        { c with lot_id := some lot.id, current_state := .awaiting_name })
      (db2, bookingLotReply lot stallsLeft)
  | lots =>
    let limited := lots.take 5
    let lines := limited.enum.map (fun p =>
      toString (p.1 + 1) ++ ") " ++ p.2.name ++ regionSuffix p.2)
    let db2 := updateConv db1 conv.id (fun c =>
      { c with current_state := .awaiting_lot_choice })
    (db2, "I found these lots:\n" ++ String.intercalate "\n" lines ++
      "\n\nReply with a number.")

/-- The lot list re-resolved from `conversation.location_raw_input`:
city/state first, code/slug fallback (`handleLotChoiceState` lines
161-171). -/
def lotChoiceLots (env : Env) (conv : Conversation) : List Lot :=
  let input := conv.location_raw_input
  let lots0 :=
    match parseCityState input with
    | (some city, st) => env.lotsByCityState (some city) st
    | (none, _) => []
  if lots0.isEmpty then env.lotsByCodeOrSlug input else lots0

def handleLotChoiceState (env : Env) (db : Db) (conv : Conversation)
    (text : String) : Db × String :=
  match jsParseInt text with
  | none => (db, "Reply with a valid number from the list.")
  | some n =>
    if n < 1 then (db, "Reply with a valid number from the list.")
    else
      let limited := (lotChoiceLots env conv).take 5
      match limited.get? (n - 1).toNat with
      | none => (db, "Please choose a valid number.")
      | some chosen =>
        let stallsLeft := env.stallsLeft chosen.id
        if stallsKnownNonpos stallsLeft then (db, soldOutMessage chosen.name)
        else
          let db1 := updateConv db conv.id (fun c =>
            { c with lot_id := some chosen.id, current_state := .awaiting_name })
          (db1, bookingLotReply chosen stallsLeft)

def truckTypePrompt : String :=
  "What are you parking?\n1 = Semi\n2 = Bobtail\n3 = Hotshot\n4 = Other\nReply with a number."

def handleNameState (_env : Env) (db : Db) (conv : Conversation)
    (text : String) : Db × String :=
  let full := jsTrim text
  if full = "" || full.length < 2 then (db, "Please send your full name.")
  else
    let db1 := updateConv db conv.id (fun c =>
      { c with driver_full_name := full, current_state := .awaiting_truck_type })
    (db1, truckTypePrompt)

/-- `const types = {1: "semi", 2: "bobtail", 3: "hotshot", 4: "other"}` -/
def truckTypes (n : Int) : Option String :=
  if n = 1 then some "semi"
  else if n = 2 then some "bobtail"
  else if n = 3 then some "hotshot"
  else if n = 4 then some "other"
  else none

def handleTruckTypeState (_env : Env) (db : Db) (conv : Conversation)
    (text : String) : Db × String :=
  let truckType := (jsParseInt text).bind truckTypes
  match truckType with
  | none => (db, "Reply 1, 2, 3, or 4.")
  | some t =>
    let db1 := updateConv db conv.id (fun c =>
      { c with truck_type := t, current_state := .awaiting_make_model })
    (db1, "Truck make & model? (e.g. \"Freightliner Cascadia\")")

def handleMakeModelState (_env : Env) (db : Db) (conv : Conversation)
    (text : String) : Db × String :=
  let v := jsTrim text
  if v = "" || v.length < 2 then (db, "Please send truck make & model.")
  else
    let db1 := updateConv db conv.id (fun c =>
      { c with truck_make_model := v, current_state := .awaiting_plate })
    (db1, "Plate (state + number)? (e.g. \"MT 7-XYZ456\")")

def stayOptionPrompt : String :=
  "How long are you staying?\n1 = 1 night\n2 = 7 nights\n3 = 30 nights\n4 = Other\nReply with a number."

def handlePlateState (_env : Env) (db : Db) (conv : Conversation)
    (text : String) : Db × String :=
  let v := jsTrim text
  if v = "" || v.length < 2 then (db, "Please send a valid license plate.")
  else
    let db1 := updateConv db conv.id (fun c =>
      { c with license_plate_raw := v, current_state := .awaiting_stay_option })
    (db1, stayOptionPrompt)

def buildSummaryPrompt (env : Env) (db : Db) (conversationId : Nat)
    (stayType : String) (nights : Nat) : Db × String :=
  match findConversation db conversationId with
  | none =>
    (alertOwner db "Error loading conversation for summary",
     "We couldn\x27t build your summary. Try again in a moment or text SUPPORT for help.")
  | some conv =>
    match conv.lot_id.bind env.lotById with
    | none =>
      (alertOwner db "Error loading lot for summary",
       "We couldn\x27t load the lot details. Try again shortly or text SUPPORT for help.")
    | some lot =>
      let pricing := computePricing lot stayType nights
      let db1 := updateConv db conversationId (fun c =>
        { c with quoted_total_cents := pricing.total_cents })
      (db1, withCommandsFooter
        ("Here’s your booking:\n" ++
         "• Lot: " ++ lot.name ++ regionSuffix lot ++ "\n" ++
         "• Name: " ++ conv.driver_full_name ++ "\n" ++
         "• Truck: " ++ conv.truck_type ++ " – " ++ conv.truck_make_model ++ "\n" ++
         "• Plate: " ++ conv.license_plate_raw ++ "\n" ++
         "• Stay: " ++ toString nights ++ " night(s)\n" ++
         "• Total: $" ++ centsToDollars pricing.total_cents ++ "\n\n" ++
         "Reply YES to get your payment link, or NO to cancel."))

def handleStayOptionState (env : Env) (db : Db) (conv : Conversation)
    (text : String) : Db × String :=
  match jsParseInt text with
  | none => (db, "Reply 1–4.")
  | some n =>
    if n = 4 then
      let db1 := updateConv db conv.id (fun c =>
        { c with current_state := .awaiting_custom_nights })
      (db1, "How many nights?")
    else if n = 1 || n = 2 || n = 3 then
      let stayType := if n = 1 then "overnight" else if n = 2 then "weekly" else "monthly"
      let nights : Nat := if n = 1 then 1 else if n = 2 then 7 else 30
      let db1 := updateConv db conv.id (fun c =>
        { c with stay_type := stayType, nights := nights,
                 current_state := .awaiting_summary_confirmation })
      buildSummaryPrompt env db1 conv.id stayType nights
    else (db, "Reply 1–4.")

def handleCustomNightsState (env : Env) (db : Db) (conv : Conversation)
    (text : String) : Db × String :=
  match jsParseInt text with
  | none => (db, "Enter 1–90 nights.")
  | some n =>
    if n < 1 || n > 90 then (db, "Enter 1–90 nights.")
    else
      let nights := n.toNat
      let db1 := updateConv db conv.id (fun c =>
        { c with stay_type := "custom", nights := nights,
                 current_state := .awaiting_summary_confirmation })
      buildSummaryPrompt env db1 conv.id "custom" nights

/-- Returns `none` for the YES case, signalling the caller to run
`createBooking` (as the source comments). -/
def handleSummaryConfirmState (db : Db) (conv : Conversation)
    (text : String) : Db × Option String :=
  let upper := jsToUpper (jsTrim text)
  if upper = "NO" || upper = "N" then
    let db1 := updateConv db conv.id (fun c =>
      { c with current_state := .cancelled, is_active := false })
    (db1, some "No problem, booking cancelled.")
  else if upper = "YES" || upper = "Y" then (db, none)
  else (db, some "Reply YES to get your payment link, or NO to cancel.")

def handleAwaitingPaymentState (env : Env) (db : Db) (conv : Conversation)
    (trimmedUpper : String) : Db × String :=
  let wantsLink :=
    ["LINK", "PAY", "PAYMENT", "YES", "Y", "RESEND"].contains trimmedUpper
  if !wantsLink then
    (db, "Your payment link was already sent.\nComplete payment to confirm, or text RESET to start over.")
  else
    match conv.booking_id with
    | none =>
      (db, "We tried to find your payment link but ran into an issue.\nText RESET to start a fresh booking.")
    | some bid =>
      match db.bookings.find? (fun b => b.id == bid) with
      | none =>
        (alertOwner db "Error loading booking in awaiting_payment",
         "We hit a snag trying to find your payment.\nYour card has not been charged. Text RESET to start over.")
      | some booking =>
        if booking.status = "confirmed" then
          (db, "Your booking is already confirmed and paid.\n" ++
            "Dates: " ++ booking.start_date ++ " to " ++ booking.end_date ++ "\n" ++
            "Plate: " ++ booking.license_plate_raw)
        else if booking.status ≠ "pending_payment" || booking.stripe_session_id = none then
          (db, "We could not re-open your payment link.\nText RESET to start a new booking.")
        else if env.stripeRetrieveThrows (booking.stripe_session_id.getD "") then
          (alertOwner db "Error retrieving Stripe session for resend",
           "We had trouble re-opening your payment link.\nYour card has not been charged. Text RESET to start over.")
        else
          match booking.stripe_session_id.bind env.stripeRetrieve with
          | none =>
            (db, "We could not re-open your payment link.\nText RESET to start a new booking.")
          | some url =>
            let db1 := logSms db (some booking.conversation_id) booking.phone
              .outbound url none
            (db1, "Here’s your secure payment link:\n" ++ url)

/-! ## Payments (src/payments/index.js) -/

/-- `encodeURIComponent`: RFC-style percent-encoding of the UTF-8 bytes of
every character outside the JS unreserved set. -/
def hexDigit (n : Nat) : Char :=
  if n < 10 then Char.ofNat (48 + n) else Char.ofNat (55 + n)

def utf8Bytes (n : Nat) : List Nat :=
  if n < 0x80 then [n]
  else if n < 0x800 then [0xC0 + n / 64, 0x80 + n % 64]
  else if n < 0x10000 then
    [0xE0 + n / 4096, 0x80 + (n / 64) % 64, 0x80 + n % 64]
  else
    [0xF0 + n / 262144, 0x80 + (n / 4096) % 64, 0x80 + (n / 64) % 64,
     0x80 + n % 64]

def isUnreservedURI (c : Char) : Bool :=
  c.isAlphanum || ['-', '_', '.', '!', '~', '*', '\x27', '(', ')'].contains c

def encodeURIComponent (s : String) : String :=
  String.join (s.data.map (fun c =>
    if isUnreservedURI c then String.mk [c]
    else String.join ((utf8Bytes c.toNat).map
      (fun b => "%" ++ String.mk [hexDigit (b / 16), hexDigit (b % 16)]))))

/-- `(lot.address_line1 || "").trim()` etc. -/
def optTrim (o : Option String) : String := jsTrim (o.getD "")

/-- `[..].filter(Boolean).join(sep)` -/
def joinTruthy (sep : String) (parts : List String) : String :=
  joinSep sep (parts.filter (fun p => p ≠ ""))

def buildLotAddress (lot : Lot) : String :=
  let street := joinTruthy ", " [optTrim lot.address_line1, optTrim lot.address_line2]
  let cityStateZip := joinTruthy " " [optTrim lot.city, optTrim lot.state, optTrim lot.zip]
  jsTrim (joinTruthy ", " [street, cityStateZip])

def hasMeaningfulAddress (address : String) : Bool :=
  if address = "" then false
  else
    let a := jsToLower address
    a.data.any (fun c => c.isDigit) || a.data.contains ','

def buildGoogleMapsUrlFromQuery (query : String) : String :=
  "https://www.google.com/maps/search/?api=1&query=" ++ encodeURIComponent query

/-- Result of `buildNavigateLink`.  The JS floating-point coordinates are
abstracted to integers; no claim examines the rendered values. -/
structure NavLink where
  gpsLine : String
  url : String
deriving Repr, DecidableEq

def buildNavigateLink (lot : Lot) : NavLink :=
  match lot.latitude, lot.longitude with
  | some lat, some lng =>
    { gpsLine := toString lat ++ ", " ++ toString lng,
      url := buildGoogleMapsUrlFromQuery (toString lat ++ "," ++ toString lng) }
  | _, _ =>
    let address := buildLotAddress lot
    if address ≠ "" && hasMeaningfulAddress address then
      { gpsLine := "", url := buildGoogleMapsUrlFromQuery address }
    else
      let fallback := strOr lot.name (strOr (lot.lot_code.getD "") "OpenYard lot")
      { gpsLine := "", url := buildGoogleMapsUrlFromQuery fallback }

def templatePaymentLink (lotName lotCode : String) (nights : Nat)
    (totalCents : Nat) (url : String) : String :=
  let dollars := roundDollars totalCents
  let lotLine := lotName ++ (if lotCode ≠ "" then " (" ++ lotCode ++ ")" else "")
  "OpenYard — secure payment link\n" ++ lotLine ++ "\n" ++
    toString nights ++ " night" ++ (if nights == 1 then "" else "s") ++
    " • $" ++ toString dollars ++ "\n\n" ++ url ++ "\n\nNeed help? Reply SUPPORT."

def templateConfirmation (lotName lotCode datesLine plate addressLine
    navigateUrl gpsLine instructions : String) : String :=
  joinSep "\n"
    ([ "✅ Booking confirmed!",
       lotName ++ (if lotCode ≠ "" then " (" ++ lotCode ++ ")" else ""),
       "Dates: " ++ datesLine ] ++
     (if plate ≠ "" then ["Plate: " ++ plate] else []) ++
     [""] ++
     (if addressLine ≠ "" then ["Address: " ++ addressLine] else []) ++
     ["Navigate: " ++ navigateUrl] ++
     (if gpsLine ≠ "" then ["GPS: " ++ gpsLine] else []) ++
     ["", "Special instructions:", instructions, "",
      "Keep this text for your records.", "Reply SUPPORT if you need help."])

/-- src/payments/index.js `createBooking` (lines 161-277). -/
def createBooking (env : Env) (db : Db) (conversation : Conversation) : Db × String :=
  match findConversation db conversation.id with
  | none =>
    (alertOwner db "Error reloading conversation for booking",
     "We couldn\x27t create your booking. Please try again.")
  | some conv =>
    match conv.lot_id.bind env.lotById with
    | none =>
      (alertOwner db "Error loading lot for booking",
       "We couldn\x27t find that lot. Try again.")
    | some lot =>
      let pricing := computePricing lot conv.stay_type conv.nights
      let startDate := env.serviceDayToday
      let endDate := env.addDaysISO startDate (if conv.nights = 0 then 1 else conv.nights)
      let bid := db.nextBookingId
      let booking : Booking :=
        { id := bid, conversation_id := conv.id,
          lot_id := conv.lot_id.getD 0, phone := conv.phone,
          driver_full_name := conv.driver_full_name,
          truck_type := conv.truck_type,
          truck_make_model := conv.truck_make_model,
          license_plate_raw := conv.license_plate_raw,
          stay_type := conv.stay_type, nights := conv.nights,
          start_date := startDate, end_date := endDate,
          nightly_rate_cents := pricing.nightly_rate_cents,
          weekly_rate_cents := lot.weekly_rate_cents,
          monthly_rate_cents := lot.monthly_rate_cents,
          subtotal_cents := pricing.subtotal_cents,
          deposit_hold_cents := pricing.deposit_hold_cents,
          total_cents := pricing.total_cents,
          currency := "usd", status := "pending_payment" }
      let db1 := { db with bookings := db.bookings ++ [booking],
                           nextBookingId := bid + 1 }
      let session := env.stripeCreateSession bid pricing.total_cents
      let db2 := { db1 with bookings := db1.bookings.map (fun b =>
        if b.id == bid then { b with stripe_session_id := some session.1 } else b) }
      let db3 := updateConv db2 conv.id (fun c =>
        { c with booking_id := some bid, current_state := .awaiting_payment })
      let payMsg := templatePaymentLink (strOr lot.name "OpenYard lot")
        (lot.lot_code.getD "") (if conv.nights = 0 then 1 else conv.nights)
        pricing.total_cents session.2
      let db4 := logSms db3 (some conv.id) conv.phone .outbound payMsg none
      (db4, payMsg)

/-- The event delivered to the payment webhook; `sigOk` models whether
`stripe.webhooks.constructEvent` accepts the signature. -/
structure StripeEvent where
  sigOk : Bool
  type : String
  booking_id : Option Nat
  payment_intent : String
  customer : String
deriving Repr, DecidableEq

/-- src/payments/index.js `stripeWebhookHandler` (lines 279-410).  Returns
the new state and the HTTP status code. -/
def stripeWebhookHandler (env : Env) (db : Db) (now : Int)
    (ev : StripeEvent) : Db × Nat :=
  if !ev.sigOk then (alertOwner db "Stripe signature error", 400)
  else if ev.type ≠ "checkout.session.completed" then (db, 200)
  else
    match ev.booking_id with
    | none =>
      (alertOwner db "Stripe checkout.session.completed missing booking_id", 200)
    | some bookingId =>
      let updated := db.bookings.map (fun b =>
        if b.id == bookingId then
          { b with status := "confirmed", paid_at := some now,
                   stripe_payment_intent_id := some ev.payment_intent,
                   stripe_customer_id := some ev.customer }
        else b)
      let db1 := { db with bookings := updated }
      match updated.find? (fun b => b.id == bookingId) with
      | none => (alertOwner db1 "Error updating booking on payment", 200)
      | some booking =>
        let db2 := { db1 with conversations := db1.conversations.map (fun c =>
          if c.id == booking.conversation_id then
            { c with is_active := false, current_state := .completed }
          else c) }
        let lot := env.lotById booking.lot_id
        let db3 := if lot = none then
            alertOwner db2 "Error loading lot for confirmation" else db2
        let lotName := strOr ((lot.map Lot.name).getD "") "OpenYard lot"
        let lotCode := (lot.bind Lot.lot_code).getD ""
        let addressRaw := match lot with
          | some l => buildLotAddress l
          | none => ""
        let addressLine :=
          if addressRaw ≠ "" && hasMeaningfulAddress addressRaw then addressRaw else ""
        let nav := match lot with
          | some l => buildNavigateLink l
          | none => { gpsLine := "", url := "" }
        let navigateUrl := strOr nav.url "https://www.google.com/maps"
        let gpsLine := nav.gpsLine
        let instructions := match lot.bind Lot.parking_instructions with
          | some s => if s ≠ "" then s else "Park in marked truck stalls."
          | none => "Park in marked truck stalls."
        let confirmMsg := templateConfirmation lotName lotCode
          (booking.start_date ++ " to " ++ booking.end_date)
          booking.license_plate_raw addressLine navigateUrl gpsLine instructions
        let db4 := sendText db3 booking.phone confirmMsg
        let db5 := logSms db4 (some booking.conversation_id) booking.phone
          .outbound confirmMsg none
        let sendAt := env.computeReviewSendAt lot
        let sched : ScheduledMessage :=
          { id := db5.nextSchedId, booking_id := booking.id,
            lot_id := booking.lot_id, phone := booking.phone,
            driver_full_name :=
              (if booking.driver_full_name = "" then none
               else some booking.driver_full_name),
            message_type := "review_nudge", send_at := sendAt }
        ({ db5 with scheduled_messages := db5.scheduled_messages ++ [sched],
                    nextSchedId := db5.nextSchedId + 1 }, 200)

/-! ## Inbound dispatch (src/sms/handler.js) -/

def bookPrompt : String :=
  withCommandsFooter
    "Where do you want to park?\nReply with a city/state or lot code.\n\nReply STOP to opt out."

def noConversationReply : String := "Text BOOK to start a reservation."

/-- The row inserted by the BOOK branch. -/
def mkNewConversation (id : Nat) (phone : String) (now : Int) : Conversation :=
  { id := id, phone := phone,
    current_state := .awaiting_location_or_lot_code,
    is_active := true, last_inbound_at := now }

/-- The `switch (conversation.current_state)` of `handleIncomingSms`
(src/sms/handler.js lines 213-255), including the YES-confirmation path
that refreshes the conversation and calls `createBooking`. -/
def dispatchState (env : Env) (db2 : Db) (conv : Conversation)
    (text : String) : Db × String :=
  match conv.current_state with
  | .awaiting_location_or_lot_code => handleLocationState env db2 conv text
  | .awaiting_lot_choice => handleLotChoiceState env db2 conv text
  | .awaiting_name => handleNameState env db2 conv text
  | .awaiting_truck_type => handleTruckTypeState env db2 conv text
  | .awaiting_make_model => handleMakeModelState env db2 conv text
  | .awaiting_plate => handlePlateState env db2 conv text
  | .awaiting_stay_option => handleStayOptionState env db2 conv text
  | .awaiting_custom_nights => handleCustomNightsState env db2 conv text
  | .awaiting_summary_confirmation =>
    match handleSummaryConfirmState db2 conv text with
    | (db3, some reply) => (db3, reply)
    | (db3, none) =>
      let fresh := (findConversation db3 conv.id).getD conv
      createBooking env db3 fresh
  | .awaiting_payment =>
    handleAwaitingPaymentState env db2 conv (jsToUpper (jsTrim text))
  | _ => (db2, noConversationReply)

/-- `String(text || "").toUpperCase().trim()` -/
def upperOf (text : String) : String := jsTrim (jsToUpper text)

/-- The 30-minute idle failsafe check of `handleIncomingSms` lines
138-145: the loaded conversation is stale. -/
def isStaleConv (db : Db) (phone : String) (now : Int) : Bool :=
  match findActiveConversation db phone with
  | some c => decide (now - c.last_inbound_at > 30 * 60 * 1000)
  | none => false

/-- The database after the idle failsafe ran. -/
def dbAfterExpiry (db : Db) (phone : String) (now : Int) : Db :=
  if isStaleConv db phone now then deactivateActiveConversations db phone else db

/-- The conversation the rest of the handler works with (`null` when the
failsafe deactivated it). -/
def convAfterExpiry (db : Db) (phone : String) (now : Int) : Option Conversation :=
  if isStaleConv db phone now then none else findActiveConversation db phone

/-- The BOOK branch of `handleIncomingSms` (lines 147-184): deactivate the
active conversation if one was loaded, insert a fresh one, log, prompt. -/
def bookBranch (db0 : Db) (hadConv : Bool) (phone text raw : String)
    (now : Int) : Db × String :=
  let dbA := if hadConv then deactivateActiveConversations db0 phone else db0
  let newConv := mkNewConversation dbA.nextConvId phone now
  let dbB := { dbA with conversations := (newConv :: dbA.conversations),
                        nextConvId := dbA.nextConvId + 1 }
  (logSms dbB (some newConv.id) phone .inbound text (some raw), bookPrompt)

/-- The SUPPORT branch of `handleIncomingSms` (lines 108-118). -/
def supportBranch (env : Env) (db : Db) (phone text raw : String) : Db × String :=
  let db1 := logSms db none phone .inbound text (some raw)
  match env.alertPhone with
  | some _ =>
    (alertOwner db1 ("Support request from " ++ phone ++ ": \"" ++ text ++ "\""),
     "Thanks — a human will follow up shortly.")
  | none =>
    (db1, "Support not configured yet. Please email alex@openyardpark.com.")

def demoReply : String :=
  "OpenYard demo – here’s what drivers see:\n\n" ++
    "1) Text BOOK\n2) Choose a lot\n3) Enter truck + plate + nights\n" ++
    "4) Pay securely by card\n5) Receive parking confirmation + instructions"

def menuReply : String :=
  "OpenYard commands:\nBOOK – start a reservation\nRESET – start over\n" ++
    "CANCEL – cancel booking\nSUPPORT – talk to a human"

/-- src/sms/handler.js `handleIncomingSms` (lines 59-256).  `raw` is the
stringified provider payload (`req.body`). -/
def handleIncomingSms (env : Env) (db : Db) (now : Int)
    (phone text raw : String) : Db × String :=
  if upperOf text = "DEMO" then
    (logSms db none phone .inbound text (some raw), demoReply)
  else if upperOf text = "MENU" then
    (logSms db none phone .inbound text (some raw), menuReply)
  else if upperOf text = "HELP" then
    (logSms db none phone .inbound text (some raw),
     "Text BOOK to start a reservation or SUPPORT for help.")
  else if upperOf text = "CANCEL" ∨ upperOf text = "STOP" then
    (logSms (deactivateActiveConversations db phone) none phone .inbound text (some raw),
     "Your booking flow has been cancelled. You will not be charged.")
  else if upperOf text = "RESET" then
    (logSms (deactivateActiveConversations db phone) none phone .inbound text (some raw),
     "All set. Text BOOK to start a new reservation.")
  else if upperOf text = "SUPPORT" then
    supportBranch env db phone text raw
  else if upperOf text = "BOOK" then
    bookBranch (dbAfterExpiry db phone now)
      (convAfterExpiry db phone now).isSome phone text raw now
  else
    match convAfterExpiry db phone now with
    | none =>
      (logSms (dbAfterExpiry db phone now) none phone .inbound text (some raw),
       noConversationReply)
    | some conv =>
      dispatchState env
        (updateConv
          (logSms (dbAfterExpiry db phone now) (some conv.id) phone .inbound
            text (some raw))
          conv.id (fun c => { c with last_inbound_at := now }))
        conv text

/-- src/sms/handler.js `twilioWebhookHandler` (lines 25-57): empty-sender
and rate-limited requests are answered without reaching
`handleIncomingSms`.  The model is exception-free, so the generic
fallback reply of the catch block does not arise. -/
def twilioWebhookHandler (env : Env) (db : Db) (now : Int)
    (reqFrom reqBody raw : String) : Db × String :=
  let fromPhone := jsTrim reqFrom
  let body := jsTrim reqBody
  if fromPhone = "" then (db, "Invalid sender. Please try again.")
  else if env.rateLimited fromPhone then
    (db, "You’re sending messages too quickly. Please wait a moment and try again.")
  else handleIncomingSms env db now fromPhone body raw

/-! ## Scheduler (src/scheduler/index.js) -/

/-- Update that sets `sent_at` (dispatch marker) and `last_error`. -/
def markSchedSent (db : Db) (id : Nat) (now : Int) (err : Option String) : Db :=
  { db with scheduled_messages := db.scheduled_messages.map (fun m =>
      if m.id == id then { m with sent_at := some now, last_error := err } else m) }

/-- Update of the catch block: records `last_error` only, leaving
`sent_at` untouched. -/
def recordSchedError (db : Db) (id : Nat) (err : String) : Db :=
  { db with scheduled_messages := db.scheduled_messages.map (fun m =>
      if m.id == id then { m with last_error := some err } else m) }

/-- `msg.driver_full_name.trim().split(/\s+/)[0] || "driver"` guarded by
truthiness of the column. -/
def firstNameOf : Option String → String
  | some s =>
    if s ≠ "" then (wordsOf s).headD "driver" else "driver"
  | none => "driver"

/-- Body of the `for (const msg of due)` loop of `runDueReviewMessages`
(lines 86-209); the only step that can throw in the model is the Twilio
send (`env.sendThrows`). -/
def runDueReviewItem (env : Env) (now : Int) (db : Db)
    (msg : ScheduledMessage) : Db :=
  let lot := env.lotById msg.lot_id
  let db0 := if lot = none then
      alertOwner db "Error loading lot for review nudge" else db
  let reviewUrl := jsStrOpt (lot.bind Lot.review_url)
  match reviewUrl with
  | none => markSchedSent db0 msg.id now (some "no review_url on lot")
  | some url =>
    match db0.bookings.find? (fun b => b.id == msg.booking_id) with
    | none =>
      markSchedSent (alertOwner db0 "Error loading booking for review nudge")
        msg.id now (some "booking not found")
    | some booking =>
      if booking.status ≠ "confirmed" then
        markSchedSent db0 msg.id now
          (some ("skipped: booking status = " ++ booking.status))
      else
        let firstName := firstNameOf msg.driver_full_name
        let lotName := strOr ((lot.map Lot.name).getD "") "OpenYard lot"
        let lotCode := match lot.bind Lot.lot_code with
          | some c => if c ≠ "" then " (" ++ c ++ ")" else ""
          | none => ""
        let nav := match lot with
          | some l => buildNavigateLink l
          | none => { gpsLine := "", url := "" }
        let body :=
          "Hey " ++ firstName ++ " â€” quick favor? " ++
          "If you have 15 seconds, please leave a review for " ++
          lotName ++ lotCode ++ ". " ++
          (if nav.url ≠ "" then "Navigate: " ++ nav.url ++ " " else "") ++
          "Review: " ++ url ++ " " ++ "Safe travels."
        if env.sendThrows msg.id then
          recordSchedError (alertOwner db0 "Error sending scheduled message")
            msg.id env.sendErrMsg
        else
          let db1 := sendText db0 msg.phone body
          let db2 := markSchedSent db1 msg.id now none
          logSms db2 (some booking.conversation_id) msg.phone .outbound body none

/-- The due-batch selection: `sent_at is null and send_at <= now`, capped
at 10. -/
def dueMessages (db : Db) (now : Int) : List ScheduledMessage :=
  (db.scheduled_messages.filter (fun m =>
    m.sent_at.isNone && decide (m.send_at ≤ now))).take 10

def runDueReviewMessages (env : Env) (db : Db) (now : Int) : Db :=
  (dueMessages db now).foldl (runDueReviewItem env now) db

/-- src/scheduler/index.js `expireIdleConversations` (lines 212-228); the
periodic sweep, and the only writer of the `expired` state. -/
def expireIdleConversations (db : Db) (now : Int) (maxMinutes : Int) : Db :=
  { db with conversations := db.conversations.map (fun c =>
      if c.is_active && decide (c.last_inbound_at ≤ now - maxMinutes * 60 * 1000) then
        { c with is_active := false, current_state := .expired }
      else c) }

/-! ## Observation helpers and the specification transition graph -/

/-- The inbound rows of the SMS log. -/
def inboundLogs (db : Db) : List SmsLog :=
  db.smsLogs.filter (fun l => l.direction == .inbound)

/-- Number of active conversations of a phone. -/
def activeCount (db : Db) (p : String) : Nat :=
  db.conversations.countP (fun c => c.phone == p && c.is_active)

/-- The terminal states of section 4.2. -/
def isTerminal : ConvState → Bool
  | .cancelled => true
  | .expired => true
  | .completed => true
  | _ => false

/-- The progress edges of the transition table in spec section 4.2
(same-state retries and jumps to a terminal state are handled by
`allowedStep`). -/
def specEdge : ConvState → ConvState → Bool
  | .awaiting_location_or_lot_code, .awaiting_name => true
  | .awaiting_location_or_lot_code, .awaiting_lot_choice => true
  | .awaiting_lot_choice, .awaiting_name => true
  | .awaiting_name, .awaiting_truck_type => true
  | .awaiting_truck_type, .awaiting_make_model => true
  | .awaiting_make_model, .awaiting_plate => true
  | .awaiting_plate, .awaiting_stay_option => true
  | .awaiting_stay_option, .awaiting_summary_confirmation => true
  | .awaiting_stay_option, .awaiting_custom_nights => true
  | .awaiting_custom_nights, .awaiting_summary_confirmation => true
  | .awaiting_summary_confirmation, .awaiting_payment => true
  | _, _ => false

/-- A single inbound message may leave the state unchanged, advance along
a table edge, or force a terminal state. -/
def allowedStep (s t : ConvState) : Prop :=
  t = s ∨ specEdge s t = true ∨ isTerminal t = true

instance (s t : ConvState) : Decidable (allowedStep s t) := by
  unfold allowedStep; infer_instance

/-- The intermediate states every conversation must have visited before
reaching a given state (from the table in section 4.2;
`awaiting_lot_choice` and `awaiting_custom_nights` are optional detours,
so they are not required for later states). -/
def requiredBefore : ConvState → List ConvState
  | .awaiting_location_or_lot_code => []
  | .awaiting_lot_choice => [.awaiting_location_or_lot_code]
  | .awaiting_name => [.awaiting_location_or_lot_code]
  | .awaiting_truck_type => [.awaiting_location_or_lot_code, .awaiting_name]
  | .awaiting_make_model =>
    [.awaiting_location_or_lot_code, .awaiting_name, .awaiting_truck_type]
  | .awaiting_plate =>
    [.awaiting_location_or_lot_code, .awaiting_name, .awaiting_truck_type,
     .awaiting_make_model]
  | .awaiting_stay_option =>
    [.awaiting_location_or_lot_code, .awaiting_name, .awaiting_truck_type,
     .awaiting_make_model, .awaiting_plate]
  | .awaiting_custom_nights =>
    [.awaiting_location_or_lot_code, .awaiting_name, .awaiting_truck_type,
     .awaiting_make_model, .awaiting_plate, .awaiting_stay_option]
  | .awaiting_summary_confirmation =>
    [.awaiting_location_or_lot_code, .awaiting_name, .awaiting_truck_type,
     .awaiting_make_model, .awaiting_plate, .awaiting_stay_option]
  | .awaiting_payment =>
    [.awaiting_location_or_lot_code, .awaiting_name, .awaiting_truck_type,
     .awaiting_make_model, .awaiting_plate, .awaiting_stay_option,
     .awaiting_summary_confirmation]
  | _ => []

/-- A list of states is a path of `allowedStep` steps starting from `s`. -/
def okPath : ConvState → List ConvState → Prop
  | _, [] => True
  | s, t :: rest => allowedStep s t ∧ okPath t rest

/-- The per-conversation relation established by one inbound request:
same id and an allowed state step. -/
def convStepOk (c c2 : Conversation) : Prop :=
  c2.id = c.id ∧ allowedStep c.current_state c2.current_state

/-- Well-formedness: conversation ids are unique. -/
def ConvIdsNodup (db : Db) : Prop :=
  (db.conversations.map Conversation.id).Nodup

instance (db : Db) : Decidable (ConvIdsNodup db) := by
  unfold ConvIdsNodup; infer_instance


/-- Shape of the effect of one request on the conversations table: a
pointwise map that preserves id and phone, only touches the row with
`targetId`, moves `current_state` only to a step allowed from `src`,
and never activates a conversation. -/
def ConvMapSpec (db db2 : Db) (targetId : Nat) (src : ConvState) : Prop :=
  ∃ f : Conversation → Conversation,
    db2.conversations = db.conversations.map f ∧
    (∀ c, (f c).id = c.id ∧ (f c).phone = c.phone) ∧
    (∀ c, c.id ≠ targetId → f c = c) ∧
    (∀ c, (f c).current_state = c.current_state ∨
      allowedStep src (f c).current_state) ∧
    (∀ c, (f c).is_active = c.is_active ∨ (f c).is_active = false)

/-- The scheduled message with a given id. -/
def findSched (db : Db) (id : Nat) : Option ScheduledMessage :=
  db.scheduled_messages.find? (fun m => m.id == id)

/-- Well-formedness: scheduled-message ids are unique. -/
def SchedIdsNodup (db : Db) : Prop :=
  (db.scheduled_messages.map ScheduledMessage.id).Nodup

instance (db : Db) : Decidable (SchedIdsNodup db) := by
  unfold SchedIdsNodup; infer_instance

/-! ## Concrete fixtures used to evaluate the model -/

/-- An environment with no lots, no stalls data and a well-behaved Stripe;
used to evaluate the handlers on concrete inputs. -/
def emptyLotsEnv : Env :=
  { lotsByCodeOrSlug := fun _ => []
    lotsByCityState := fun _ _ => []
    stallsLeft := fun _ => none
    lotById := fun _ => none
    stripeCreateSession := fun b _ => ("sess_" ++ toString b, "https://pay.example/" ++ toString b)
    stripeRetrieve := fun _ => none
    stripeRetrieveThrows := fun _ => false
    computeReviewSendAt := fun _ => 0
    rateLimited := fun _ => false
    alertPhone := none
    serviceDayToday := "2026-01-01"
    addDaysISO := fun d _ => d
    sendThrows := fun _ => false
    sendErrMsg := "send failed" }

def rateLimitedEnv : Env := { emptyLotsEnv with rateLimited := fun _ => true }

def zeroWeeklyLot : Lot :=
  { id := 1, name := "Lot A", nightly_rate_cents := some 1000,
    weekly_rate_cents := some 0 }

def pendingBooking : Booking :=
  { id := 1, conversation_id := 1, lot_id := 7, phone := "+15551234567",
    driver_full_name := "Jane Doe", truck_type := "semi",
    truck_make_model := "Freightliner Cascadia",
    license_plate_raw := "MT 7-XYZ456", stay_type := "overnight", nights := 1,
    start_date := "2026-01-01", end_date := "2026-01-02",
    nightly_rate_cents := 2500, weekly_rate_cents := none,
    monthly_rate_cents := none, subtotal_cents := 2500,
    deposit_hold_cents := 0, total_cents := 2500, currency := "usd",
    status := "pending_payment", stripe_session_id := some "sess_1" }

def payConv : Conversation :=
  { id := 1, phone := "+15551234567", current_state := .awaiting_payment,
    is_active := true, last_inbound_at := 0 }

def payDb : Db := { bookings := [pendingBooking], conversations := [payConv] }

def completedEvent : StripeEvent :=
  { sigOk := true, type := "checkout.session.completed", booking_id := some 1,
    payment_intent := "pi_1", customer := "cus_1" }

/-- State after the first delivery of `completedEvent`. -/
def payDbOnce : Db := (stripeWebhookHandler emptyLotsEnv payDb 50 completedEvent).1

/-- State after the identical event is delivered a second time. -/
def payDbTwice : Db := (stripeWebhookHandler emptyLotsEnv payDbOnce 60 completedEvent).1

def staleConv : Conversation :=
  { id := 1, phone := "+15551234567", current_state := .awaiting_name,
    is_active := true, last_inbound_at := 0 }

def staleDb : Db := { conversations := [staleConv] }

def truckConv : Conversation :=
  { id := 1, phone := "+15551234567", current_state := .awaiting_truck_type,
    is_active := true, last_inbound_at := 0 }

def truckDb : Db := { conversations := [truckConv] }


def reviewLot : Lot :=
  { id := 7, name := "Bozeman Yard", review_url := some "https://g.page/r/bozeman" }

def schedEnv : Env :=
  { emptyLotsEnv with lotById := fun i => if i == 7 then some reviewLot else none }

def confirmedBooking : Booking := { pendingBooking with status := "confirmed" }

def schedMsg : ScheduledMessage :=
  { id := 1, booking_id := 1, lot_id := 7, phone := "+15551234567",
    driver_full_name := some "Jane Doe", message_type := "review_nudge",
    send_at := 0 }

def schedDb : Db :=
  { scheduled_messages := [schedMsg], bookings := [confirmedBooking] }

/-! ## Claim theorems -/

/-- C1: replaying the identical `checkout.session.completed` event is NOT
absorbed: the handler has no status guard, so the second delivery sends a
second confirmation text, writes a second outbound log row, and inserts a
second `review_nudge` scheduled message, while acknowledging 200 both
times.  This contradicts the claim (and the spec invariant) that the
second application has no observable effect beyond the first. -/
theorem c1_payment_webhook_replay_double_dispatch :
    payDbOnce.sentTexts.length = 1 ∧
    payDbTwice.sentTexts.length = 2 ∧
    (payDbOnce.scheduled_messages.filter
      (fun m => m.message_type == "review_nudge")).length = 1 ∧
    (payDbTwice.scheduled_messages.filter
      (fun m => m.message_type == "review_nudge")).length = 2 ∧
    (payDbTwice.smsLogs.filter (fun l => l.direction == .outbound)).length = 2 ∧
    (stripeWebhookHandler emptyLotsEnv payDb 50 completedEvent).2 = 200 ∧
    (stripeWebhookHandler emptyLotsEnv payDbOnce 60 completedEvent).2 = 200 := by
  decide

/-- C2 counterexample: a conversation idle for more than 30 minutes is
deactivated on the next inbound message, but its `current_state` becomes
`cancelled` (via `deactivateActiveConversations`), not `expired` as the
claim states. -/
theorem c2_expiry_sets_cancelled_not_expired_cex :
    (31 * 60 * 1000 : Int) - staleConv.last_inbound_at > 30 * 60 * 1000 ∧
    (findConversation (handleIncomingSms emptyLotsEnv staleDb (31 * 60 * 1000)
        "+15551234567" "hello" "{}").1 1).map Conversation.current_state =
      some .cancelled ∧
    (findConversation (handleIncomingSms emptyLotsEnv staleDb (31 * 60 * 1000)
        "+15551234567" "hello" "{}").1 1).map Conversation.is_active =
      some false ∧
    ¬ (findConversation (handleIncomingSms emptyLotsEnv staleDb (31 * 60 * 1000)
        "+15551234567" "hello" "{}").1 1).map Conversation.current_state =
      some .expired := by
  decide

/-- C3 counterexample: a rate-limited request with a non-empty sender is
answered without writing any inbound log row. -/
theorem c3_rate_limited_path_logs_nothing_cex :
    (twilioWebhookHandler rateLimitedEnv staleDb 0
      "+15551234567" "hello" "{}").1.smsLogs = [] ∧
    (twilioWebhookHandler rateLimitedEnv staleDb 0
      "+15551234567" "hello" "{}").2 =
      "You’re sending messages too quickly. Please wait a moment and try again." := by
  decide

/-- C6 counterexample: a lot that defines a weekly rate of 0 cents does
not get the flat weekly subtotal; the code multiplies the nightly rate
(JS truthiness treats 0 like a missing rate). -/
theorem c6_zero_flat_rate_cex :
    zeroWeeklyLot.weekly_rate_cents = some 0 ∧
    (computePricing zeroWeeklyLot "weekly" 7).subtotal_cents = 7000 ∧
    ¬ (computePricing zeroWeeklyLot "weekly" 7).subtotal_cents =
        zeroWeeklyLot.weekly_rate_cents.getD 0 := by
  decide

/-- C6 (amended): for nights ≥ 1, deposit hold is always 0 and total =
subtotal + deposit; stay type `weekly` (resp. `monthly`) with a defined
NONZERO weekly (resp. monthly) rate yields that flat rate independent of
the night count; `custom` always multiplies; and without a matching
truthy flat rate the subtotal is `nightly_rate × nights`. -/
theorem c6_pricing_rules_amended (lot : Lot) (st : String) (n : Nat) (hn : 1 ≤ n) :
    (computePricing lot st n).deposit_hold_cents = 0 ∧
    (computePricing lot st n).total_cents =
      (computePricing lot st n).subtotal_cents + (computePricing lot st n).deposit_hold_cents ∧
    (st = "weekly" → jsTruthyNat lot.weekly_rate_cents = true →
      (computePricing lot st n).subtotal_cents = lot.weekly_rate_cents.getD 0) ∧
    (st = "monthly" → jsTruthyNat lot.monthly_rate_cents = true →
      (computePricing lot st n).subtotal_cents = lot.monthly_rate_cents.getD 0) ∧
    (st = "custom" →
      (computePricing lot st n).subtotal_cents = (computePricing lot st n).nightly_rate_cents * n) ∧
    ((st = "weekly" → jsTruthyNat lot.weekly_rate_cents = false) →
     (st = "monthly" → jsTruthyNat lot.monthly_rate_cents = false) →
      (computePricing lot st n).subtotal_cents = (computePricing lot st n).nightly_rate_cents * n) := by
  have hn0 : ¬ n = 0 := by omega
  unfold computePricing
  simp only [hn0, if_false, ite_false]
  refine ⟨trivial, trivial, ?_, ?_, ?_, ?_⟩
  · intro hw ht; subst hw; simp [ht]
  · intro hm ht; subst hm; simp [ht]
  · intro hc; subst hc; simp
  · intro h1 h2
    by_cases hw : st = "weekly"
    · simp [hw, h1 hw]
    · by_cases hm : st = "monthly"
      · simp [hm, h2 hm, hw]
      · simp [hw, hm]

/-- Witness for C6 at `custom`, 3 nights on a concrete lot. -/
theorem c6_pricing_witness :
    1 ≤ 3 ∧
    (computePricing zeroWeeklyLot "custom" 3).subtotal_cents =
      (computePricing zeroWeeklyLot "custom" 3).nightly_rate_cents * 3 :=
  ⟨by decide, (c6_pricing_rules_amended zeroWeeklyLot "custom" 3 (by decide)).2.2.2.2.1 rfl⟩

/-- C9: location inputs with no code/slug match parse as
`<city> [<2-letter state>]`: a trailing 2-letter alphabetic token becomes
the state (uppercased) with everything before it the city; otherwise the
whole (normalized) input is the city with a null state.  Includes the two
concrete examples from the spec. -/
theorem c9_city_state_parsing :
    parseCityState "Kansas City MO" = (some "Kansas City", some "MO") ∧
    parseCityState "Bozeman" = (some "Bozeman", none) ∧
    (∀ raw : String, cleanedOf raw ≠ "" →
      2 ≤ (splitSpace (cleanedOf raw)).length →
      isTwoAlpha ((splitSpace (cleanedOf raw)).getLastD "") = true →
        parseCityState raw =
          ((if jsTrim (joinSep " " (splitSpace (cleanedOf raw)).dropLast) = ""
            then none
            else some (jsTrim (joinSep " " (splitSpace (cleanedOf raw)).dropLast))),
           some (jsToUpper ((splitSpace (cleanedOf raw)).getLastD "")))) ∧
    (∀ raw : String, cleanedOf raw ≠ "" →
      2 ≤ (splitSpace (cleanedOf raw)).length →
      isTwoAlpha ((splitSpace (cleanedOf raw)).getLastD "") = false →
        parseCityState raw = (some (cleanedOf raw), none)) ∧
    (∀ raw : String, cleanedOf raw ≠ "" →
      (splitSpace (cleanedOf raw)).length = 1 →
        parseCityState raw = (some (cleanedOf raw), none)) := by
  refine ⟨by decide, by decide, ?_, ?_, ?_⟩
  · intro raw h1 h2 h3
    unfold parseCityState
    rw [if_neg h1, if_neg (by omega)]
    rw [List.getLastD_eq_getLast?] at h3
    simp [h3]
  · intro raw h1 h2 h3
    unfold parseCityState
    rw [if_neg h1, if_neg (by omega)]
    rw [List.getLastD_eq_getLast?] at h3
    simp [h3]
  · intro raw h1 h2
    unfold parseCityState
    rw [if_neg h1, if_pos h2]

/-- Witness for C9 on a lowercase multi-word input. -/
theorem c9_city_state_witness :
    parseCityState "salt lake city ut" = (some "salt lake city", some "UT") := by
  have h := c9_city_state_parsing.2.2.1 "salt lake city ut"
    (by decide) (by decide) (by decide)
  rw [h]
  decide

/-- C10 counterexample: `parseInt` accepts a leading `+` sign, so "+3" in
the truck-type state is accepted as 3 (hotshot) although the trimmed text
has no leading digit prefix — the claim as stated would reject it. -/
theorem c10_plus_sign_cex :
    specLeadingDigitValue "+3" = none ∧
    (handleTruckTypeState emptyLotsEnv truckDb truckConv "+3").1.conversations =
      [{ truckConv with truck_type := "hotshot",
                        current_state := .awaiting_make_model }] ∧
    (handleTruckTypeState emptyLotsEnv truckDb truckConv "+3").2 =
      "Truck make & model? (e.g. \"Freightliner Cascadia\")" := by
  decide

theorem findConversation_updateConv (db : Db) (id : Nat)
    (f : Conversation → Conversation) (hf : ∀ c, (f c).id = c.id) :
    findConversation (updateConv db id f) id =
      (findConversation db id).map (fun c => if c.id == id then f c else c) := by
  unfold findConversation updateConv
  rw [List.find?_map]
  have hp : ((fun c : Conversation => c.id == id) ∘
      fun c : Conversation => if c.id == id then f c else c)
      = (fun c : Conversation => c.id == id) := by
    funext c
    simp only [Function.comp]
    by_cases h : c.id == id <;> simp [h, hf c]
  rw [hp]

theorem findConversation_id_eq {db : Db} {id : Nat} {c : Conversation}
    (h : findConversation db id = some c) : (c.id == id) = true := by
  unfold findConversation at h
  have := List.find?_some h
  simpa using this

theorem findConversation_alertOwner (db : Db) (m : String) (id : Nat) :
    findConversation (alertOwner db m) id = findConversation db id := rfl

theorem findConversation_logSms (db : Db) (cid : Option Nat) (p : String)
    (d : Direction) (b : String) (r : Option String) (id : Nat) :
    findConversation (logSms db cid p d b r) id = findConversation db id := rfl

theorem findConversation_sendText (db : Db) (t b : String) (id : Nat) :
    findConversation (sendText db t b) id = findConversation db id := rfl

theorem buildSummaryPrompt_proj {α : Type} (env : Env) (db : Db) (cid : Nat)
    (st : String) (n : Nat) (proj : Conversation → α)
    (hproj : ∀ c t, proj { c with quoted_total_cents := t } = proj c) :
    (findConversation (buildSummaryPrompt env db cid st n).1 cid).map proj =
      (findConversation db cid).map proj := by
  unfold buildSummaryPrompt
  cases h : findConversation db cid with
  | none => simp [h, findConversation_alertOwner]
  | some c =>
    cases h2 : c.lot_id.bind env.lotById with
    | none => simp [h, h2, findConversation_alertOwner]
    | some lot =>
      simp only [h, h2]
      rw [findConversation_updateConv db cid
        (fun c => { c with quoted_total_cents := (computePricing lot st n).total_cents })
        (fun c => rfl)]
      rw [h]
      show Option.map proj (some (if c.id == cid then
        { c with quoted_total_cents := (computePricing lot st n).total_cents } else c))
        = Option.map proj (some c)
      rw [if_pos (findConversation_id_eq h)]
      show some (proj { c with quoted_total_cents := (computePricing lot st n).total_cents }) = some (proj c)
      rw [hproj c]


theorem truckTypes_none {n : Int} (h : n < 1 ∨ 4 < n) : truckTypes n = none := by
  unfold truckTypes
  split_ifs with h1 h2 h3 h4 <;> first | (exfalso; omega) | rfl

theorem truckTypes_some {n : Int} (h1 : 1 ≤ n) (h2 : n ≤ 4) :
    truckTypes n = some ((truckTypes n).getD "") := by
  interval_cases n <;> rfl

theorem handleTruckTypeState_reject (env : Env) (db : Db) (conv : Conversation)
    (text : String) (h : (jsParseInt text).bind truckTypes = none) :
    handleTruckTypeState env db conv text = (db, "Reply 1, 2, 3, or 4.") := by
  unfold handleTruckTypeState
  simp only [h]

theorem handleTruckTypeState_accept (env : Env) (db : Db) (conv : Conversation)
    (text : String) (n : Int) (h : jsParseInt text = some n)
    (h1 : 1 ≤ n) (h2 : n ≤ 4) :
    handleTruckTypeState env db conv text =
      (updateConv db conv.id (fun c =>
        { c with truck_type := (truckTypes n).getD "",
                 current_state := .awaiting_make_model }),
       "Truck make & model? (e.g. \"Freightliner Cascadia\")") := by
  unfold handleTruckTypeState
  rw [h]
  rw [Option.some_bind]
  rw [truckTypes_some h1 h2]
  rfl


theorem findConversation_updateConv_self (db : Db) (cid : Nat) (c0 : Conversation)
    (f : Conversation → Conversation) (hf : ∀ c, (f c).id = c.id)
    (hc : findConversation db cid = some c0) :
    findConversation (updateConv db cid f) cid = some (f c0) := by
  rw [findConversation_updateConv db cid f hf, hc]
  show some (if c0.id == cid then f c0 else c0) = some (f c0)
  rw [if_pos (findConversation_id_eq hc)]

theorem handleStayOptionState_rejectA (env : Env) (db : Db) (conv : Conversation)
    (text : String) (h : jsParseInt text = none) :
    handleStayOptionState env db conv text = (db, "Reply 1–4.") := by
  unfold handleStayOptionState
  rw [h]

theorem handleStayOptionState_rejectB (env : Env) (db : Db) (conv : Conversation)
    (text : String) (n : Int) (h : jsParseInt text = some n)
    (hr : n < 1 ∨ 4 < n) :
    handleStayOptionState env db conv text = (db, "Reply 1–4.") := by
  unfold handleStayOptionState
  simp only [h]
  split_ifs with ha hb h1 h2 <;>
    first
      | rfl
      | (exfalso; omega)
      | (exfalso; simp at hb; omega)

theorem handleStayOptionState_custom4 (env : Env) (db : Db) (conv : Conversation)
    (text : String) (h : jsParseInt text = some 4) :
    handleStayOptionState env db conv text =
      (updateConv db conv.id (fun c => { c with current_state := .awaiting_custom_nights }),
       "How many nights?") := by
  unfold handleStayOptionState
  simp only [h]
  rw [if_pos trivial]

theorem handleStayOptionState_fixed (env : Env) (db : Db) (conv : Conversation)
    (text : String) (n : Int) (c0 : Conversation)
    (h : jsParseInt text = some n) (hr : n = 1 ∨ n = 2 ∨ n = 3)
    (hc : findConversation db conv.id = some c0) :
    (findConversation (handleStayOptionState env db conv text).1 conv.id).map
        (fun c => (c.current_state, c.stay_type, c.nights)) =
      some (ConvState.awaiting_summary_confirmation,
        (if n = 1 then "overnight" else if n = 2 then "weekly" else "monthly"),
        (if n = 1 then 1 else if n = 2 then 7 else (30 : Nat))) := by
  unfold handleStayOptionState
  simp only [h]
  rw [if_neg (by omega : ¬ n = 4)]
  rw [if_pos (by rcases hr with h | h | h <;> simp [h])]
  rw [buildSummaryPrompt_proj env _ conv.id _ _
    (fun c => (c.current_state, c.stay_type, c.nights)) (fun c t => rfl)]
  rw [findConversation_updateConv_self db conv.id c0
    (fun c => { c with
      stay_type := if n = 1 then "overnight" else if n = 2 then "weekly" else "monthly",
      nights := if n = 1 then 1 else if n = 2 then 7 else 30,
      current_state := .awaiting_summary_confirmation })
    (fun c => rfl) hc]
  rfl


theorem handleCustomNightsState_rejectA (env : Env) (db : Db) (conv : Conversation)
    (text : String) (h : jsParseInt text = none) :
    handleCustomNightsState env db conv text = (db, "Enter 1–90 nights.") := by
  unfold handleCustomNightsState
  simp only [h]

theorem handleCustomNightsState_rejectB (env : Env) (db : Db) (conv : Conversation)
    (text : String) (n : Int) (h : jsParseInt text = some n)
    (hr : n < 1 ∨ 90 < n) :
    handleCustomNightsState env db conv text = (db, "Enter 1–90 nights.") := by
  unfold handleCustomNightsState
  simp only [h]
  rw [if_pos]
  rcases hr with h | h <;> simp [h]

theorem handleCustomNightsState_accept (env : Env) (db : Db) (conv : Conversation)
    (text : String) (n : Int) (c0 : Conversation)
    (h : jsParseInt text = some n) (h1 : 1 ≤ n) (h2 : n ≤ 90)
    (hc : findConversation db conv.id = some c0) :
    (findConversation (handleCustomNightsState env db conv text).1 conv.id).map
        (fun c => (c.current_state, c.stay_type, c.nights)) =
      some (ConvState.awaiting_summary_confirmation, "custom", n.toNat) := by
  unfold handleCustomNightsState
  simp only [h]
  rw [if_neg (by simp; omega)]
  rw [buildSummaryPrompt_proj env _ conv.id _ _
    (fun c => (c.current_state, c.stay_type, c.nights)) (fun c t => rfl)]
  rw [findConversation_updateConv_self db conv.id c0
    (fun c => { c with stay_type := "custom", nights := n.toNat,
                       current_state := .awaiting_summary_confirmation })
    (fun c => rfl) hc]
  rfl

theorem handleLotChoiceState_rejectA (env : Env) (db : Db) (conv : Conversation)
    (text : String) (h : jsParseInt text = none) :
    handleLotChoiceState env db conv text =
      (db, "Reply with a valid number from the list.") := by
  unfold handleLotChoiceState
  simp only [h]

theorem handleLotChoiceState_rejectB (env : Env) (db : Db) (conv : Conversation)
    (text : String) (n : Int) (h : jsParseInt text = some n) (hr : n < 1) :
    handleLotChoiceState env db conv text =
      (db, "Reply with a valid number from the list.") := by
  unfold handleLotChoiceState
  simp only [h]
  rw [if_pos hr]

theorem handleLotChoiceState_rejectC (env : Env) (db : Db) (conv : Conversation)
    (text : String) (n : Int) (h : jsParseInt text = some n) (h1 : 1 ≤ n)
    (hget : ((lotChoiceLots env conv).take 5).get? (n - 1).toNat = none) :
    handleLotChoiceState env db conv text = (db, "Please choose a valid number.") := by
  unfold handleLotChoiceState
  simp only [h]
  rw [if_neg (by omega)]
  simp only [hget]

theorem handleLotChoiceState_soldOut (env : Env) (db : Db) (conv : Conversation)
    (text : String) (n : Int) (chosen : Lot)
    (h : jsParseInt text = some n) (h1 : 1 ≤ n)
    (hget : ((lotChoiceLots env conv).take 5).get? (n - 1).toNat = some chosen)
    (hs : stallsKnownNonpos (env.stallsLeft chosen.id) = true) :
    handleLotChoiceState env db conv text = (db, soldOutMessage chosen.name) := by
  unfold handleLotChoiceState
  simp only [h]
  rw [if_neg (by omega)]
  simp only [hget]
  rw [if_pos hs]

theorem handleLotChoiceState_accept (env : Env) (db : Db) (conv : Conversation)
    (text : String) (n : Int) (chosen : Lot) (c0 : Conversation)
    (h : jsParseInt text = some n) (h1 : 1 ≤ n)
    (hget : ((lotChoiceLots env conv).take 5).get? (n - 1).toNat = some chosen)
    (hs : stallsKnownNonpos (env.stallsLeft chosen.id) = false)
    (hc : findConversation db conv.id = some c0) :
    (findConversation (handleLotChoiceState env db conv text).1 conv.id).map
        (fun c => (c.current_state, c.lot_id)) =
      some (ConvState.awaiting_name, some chosen.id) ∧
    (handleLotChoiceState env db conv text).2 =
      bookingLotReply chosen (env.stallsLeft chosen.id) := by
  unfold handleLotChoiceState
  simp only [h]
  rw [if_neg (by omega)]
  simp only [hget]
  rw [if_neg (by simp [hs])]
  refine ⟨?_, rfl⟩
  rw [findConversation_updateConv_self db conv.id c0
    (fun c => { c with lot_id := some chosen.id, current_state := .awaiting_name })
    (fun c => rfl) hc]
  rfl


/-- C10 (amended): in every numeric-input state, the inbound message is
accepted exactly when `parseInt` (base 10 on the trimmed text: an optional
leading `+`/`-` sign followed by the longest digit run, trailing
characters ignored) yields an integer in the state's valid range
(truck type 1-4, stay option 1-4, custom nights 1-90, lot choice
1..min(5,N), with the chosen lot's availability additionally gating the
advance); out-of-range or unparseable input leaves the database unchanged
and re-prompts. -/
theorem c10_numeric_acceptance_amended :
    (∀ (env : Env) (db : Db) (conv : Conversation) (text : String),
      (jsParseInt text = none →
        handleTruckTypeState env db conv text = (db, "Reply 1, 2, 3, or 4.")) ∧
      (∀ n : Int, jsParseInt text = some n → n < 1 ∨ 4 < n →
        handleTruckTypeState env db conv text = (db, "Reply 1, 2, 3, or 4.")) ∧
      (∀ n : Int, jsParseInt text = some n → 1 ≤ n → n ≤ 4 →
        handleTruckTypeState env db conv text =
          (updateConv db conv.id (fun c =>
            { c with truck_type := (truckTypes n).getD "",
                     current_state := .awaiting_make_model }),
           "Truck make & model? (e.g. \"Freightliner Cascadia\")"))) ∧
    (∀ (env : Env) (db : Db) (conv : Conversation) (text : String),
      (jsParseInt text = none →
        handleStayOptionState env db conv text = (db, "Reply 1–4.")) ∧
      (∀ n : Int, jsParseInt text = some n → n < 1 ∨ 4 < n →
        handleStayOptionState env db conv text = (db, "Reply 1–4.")) ∧
      (∀ n : Int, jsParseInt text = some n → n = 4 →
        handleStayOptionState env db conv text =
          (updateConv db conv.id (fun c =>
            { c with current_state := .awaiting_custom_nights }),
           "How many nights?")) ∧
      (∀ (n : Int) (c0 : Conversation), jsParseInt text = some n →
        n = 1 ∨ n = 2 ∨ n = 3 → findConversation db conv.id = some c0 →
        (findConversation (handleStayOptionState env db conv text).1 conv.id).map
            (fun c => (c.current_state, c.stay_type, c.nights)) =
          some (ConvState.awaiting_summary_confirmation,
            (if n = 1 then "overnight" else if n = 2 then "weekly" else "monthly"),
            (if n = 1 then 1 else if n = 2 then 7 else (30 : Nat))))) ∧
    (∀ (env : Env) (db : Db) (conv : Conversation) (text : String),
      (jsParseInt text = none →
        handleCustomNightsState env db conv text = (db, "Enter 1–90 nights.")) ∧
      (∀ n : Int, jsParseInt text = some n → n < 1 ∨ 90 < n →
        handleCustomNightsState env db conv text = (db, "Enter 1–90 nights.")) ∧
      (∀ (n : Int) (c0 : Conversation), jsParseInt text = some n →
        1 ≤ n → n ≤ 90 → findConversation db conv.id = some c0 →
        (findConversation (handleCustomNightsState env db conv text).1 conv.id).map
            (fun c => (c.current_state, c.stay_type, c.nights)) =
          some (ConvState.awaiting_summary_confirmation, "custom", n.toNat))) ∧
    (∀ (env : Env) (db : Db) (conv : Conversation) (text : String),
      (jsParseInt text = none →
        handleLotChoiceState env db conv text =
          (db, "Reply with a valid number from the list.")) ∧
      (∀ n : Int, jsParseInt text = some n → n < 1 →
        handleLotChoiceState env db conv text =
          (db, "Reply with a valid number from the list.")) ∧
      (∀ n : Int, 1 ≤ n →
        (((lotChoiceLots env conv).take 5).get? (n - 1).toNat = none ↔
          ((lotChoiceLots env conv).take 5).length < n)) ∧
      (∀ n : Int, jsParseInt text = some n → 1 ≤ n →
        ((lotChoiceLots env conv).take 5).get? (n - 1).toNat = none →
        handleLotChoiceState env db conv text = (db, "Please choose a valid number.")) ∧
      (∀ (n : Int) (chosen : Lot), jsParseInt text = some n → 1 ≤ n →
        ((lotChoiceLots env conv).take 5).get? (n - 1).toNat = some chosen →
        stallsKnownNonpos (env.stallsLeft chosen.id) = true →
        handleLotChoiceState env db conv text = (db, soldOutMessage chosen.name)) ∧
      (∀ (n : Int) (chosen : Lot) (c0 : Conversation), jsParseInt text = some n →
        1 ≤ n →
        ((lotChoiceLots env conv).take 5).get? (n - 1).toNat = some chosen →
        stallsKnownNonpos (env.stallsLeft chosen.id) = false →
        findConversation db conv.id = some c0 →
        (findConversation (handleLotChoiceState env db conv text).1 conv.id).map
            (fun c => (c.current_state, c.lot_id)) =
          some (ConvState.awaiting_name, some chosen.id) ∧
        (handleLotChoiceState env db conv text).2 =
          bookingLotReply chosen (env.stallsLeft chosen.id))) := by
  refine ⟨fun env db conv text => ⟨?_, ?_, ?_⟩,
          fun env db conv text => ⟨?_, ?_, ?_, ?_⟩,
          fun env db conv text => ⟨?_, ?_, ?_⟩,
          fun env db conv text => ⟨?_, ?_, ?_, ?_, ?_, ?_⟩⟩
  · intro h
    exact handleTruckTypeState_reject env db conv text (by rw [h]; rfl)
  · intro n h hr
    exact handleTruckTypeState_reject env db conv text
      (by rw [h, Option.some_bind, truckTypes_none hr])
  · intro n h h1 h2
    exact handleTruckTypeState_accept env db conv text n h h1 h2
  · exact handleStayOptionState_rejectA env db conv text
  · intro n h hr
    exact handleStayOptionState_rejectB env db conv text n h hr
  · intro n h h4
    subst h4
    exact handleStayOptionState_custom4 env db conv text h
  · intro n c0 h hr hc
    exact handleStayOptionState_fixed env db conv text n c0 h hr hc
  · exact handleCustomNightsState_rejectA env db conv text
  · intro n h hr
    exact handleCustomNightsState_rejectB env db conv text n h hr
  · intro n c0 h h1 h2 hc
    exact handleCustomNightsState_accept env db conv text n c0 h h1 h2 hc
  · exact handleLotChoiceState_rejectA env db conv text
  · intro n h hr
    exact handleLotChoiceState_rejectB env db conv text n h hr
  · intro n h1
    rw [List.get?_eq_none]
    omega
  · intro n h h1 hget
    exact handleLotChoiceState_rejectC env db conv text n h h1 hget
  · intro n chosen h h1 hget hs
    exact handleLotChoiceState_soldOut env db conv text n chosen h h1 hget hs
  · intro n chosen c0 h h1 hget hs hc
    exact handleLotChoiceState_accept env db conv text n chosen c0 h h1 hget hs hc


theorem c10_numeric_witness :
    jsParseInt "2nd" = some 2 ∧
    handleTruckTypeState emptyLotsEnv truckDb truckConv "2nd" =
      (updateConv truckDb truckConv.id (fun c =>
        { c with truck_type := (truckTypes 2).getD "",
                 current_state := .awaiting_make_model }),
       "Truck make & model? (e.g. \"Freightliner Cascadia\")") ∧
    jsParseInt "12 nights" = some 12 ∧
    (findConversation (handleCustomNightsState emptyLotsEnv truckDb truckConv
        "12 nights").1 truckConv.id).map
        (fun c => (c.current_state, c.stay_type, c.nights)) =
      some (ConvState.awaiting_summary_confirmation, "custom", (12 : Int).toNat) := by
  refine ⟨by decide, ?_, by decide, ?_⟩
  · exact (c10_numeric_acceptance_amended.1 emptyLotsEnv truckDb truckConv "2nd").2.2
      2 (by decide) (by decide) (by decide)
  · exact (c10_numeric_acceptance_amended.2.2.1 emptyLotsEnv truckDb truckConv
      "12 nights").2.2 12 truckConv (by decide) (by decide) (by decide) (by decide)

theorem inboundLogs_logSms_inbound (db : Db) (cid : Option Nat) (p b : String)
    (r : String) :
    inboundLogs (logSms db cid p .inbound b (some r)) =
      inboundLogs db ++
        [{ conversation_id := cid, phone := p, direction := .inbound,
           body := b, raw := some (jsTake 8000 r) }] := by
  simp [inboundLogs, logSms, List.filter_append]

theorem inboundLogs_logSms_outbound (db : Db) (cid : Option Nat) (p b : String)
    (r : Option String) :
    inboundLogs (logSms db cid p .outbound b r) = inboundLogs db := by
  simp [inboundLogs, logSms, List.filter_append]

theorem inboundLogs_updateConv (db : Db) (id : Nat) (f : Conversation → Conversation) :
    inboundLogs (updateConv db id f) = inboundLogs db := rfl

theorem inboundLogs_deactivate (db : Db) (p : String) :
    inboundLogs (deactivateActiveConversations db p) = inboundLogs db := rfl

theorem inboundLogs_alertOwner (db : Db) (m : String) :
    inboundLogs (alertOwner db m) = inboundLogs db := rfl

theorem inboundLogs_sendText (db : Db) (t b : String) :
    inboundLogs (sendText db t b) = inboundLogs db := rfl

theorem inboundLogs_handleLocationState (env : Env) (db : Db) (conv : Conversation)
    (text : String) :
    inboundLogs (handleLocationState env db conv text).1 = inboundLogs db := by
  unfold handleLocationState
  dsimp only
  split
  · simp [inboundLogs_updateConv]
  · split <;> simp [inboundLogs_updateConv]
  · simp [inboundLogs_updateConv]

theorem inboundLogs_buildSummaryPrompt (env : Env) (db : Db) (cid : Nat)
    (st : String) (n : Nat) :
    inboundLogs (buildSummaryPrompt env db cid st n).1 = inboundLogs db := by
  unfold buildSummaryPrompt
  split
  · simp [inboundLogs_alertOwner]
  · split <;> simp [inboundLogs_alertOwner, inboundLogs_updateConv]

theorem inboundLogs_handleLotChoiceState (env : Env) (db : Db) (conv : Conversation)
    (text : String) :
    inboundLogs (handleLotChoiceState env db conv text).1 = inboundLogs db := by
  unfold handleLotChoiceState
  split
  · rfl
  · dsimp only
    split
    · rfl
    · split
      · rfl
      · split
        · rfl
        · simp [inboundLogs_updateConv]

theorem inboundLogs_handleNameState (env : Env) (db : Db) (conv : Conversation)
    (text : String) :
    inboundLogs (handleNameState env db conv text).1 = inboundLogs db := by
  unfold handleNameState
  dsimp only
  split <;> simp [inboundLogs_updateConv]

theorem inboundLogs_handleTruckTypeState (env : Env) (db : Db) (conv : Conversation)
    (text : String) :
    inboundLogs (handleTruckTypeState env db conv text).1 = inboundLogs db := by
  unfold handleTruckTypeState
  dsimp only
  split <;> simp [inboundLogs_updateConv]

theorem inboundLogs_handleMakeModelState (env : Env) (db : Db) (conv : Conversation)
    (text : String) :
    inboundLogs (handleMakeModelState env db conv text).1 = inboundLogs db := by
  unfold handleMakeModelState
  dsimp only
  split <;> simp [inboundLogs_updateConv]

theorem inboundLogs_handlePlateState (env : Env) (db : Db) (conv : Conversation)
    (text : String) :
    inboundLogs (handlePlateState env db conv text).1 = inboundLogs db := by
  unfold handlePlateState
  dsimp only
  split <;> simp [inboundLogs_updateConv]

theorem inboundLogs_handleStayOptionState (env : Env) (db : Db) (conv : Conversation)
    (text : String) :
    inboundLogs (handleStayOptionState env db conv text).1 = inboundLogs db := by
  unfold handleStayOptionState
  split
  · rfl
  · dsimp only
    split
    · simp [inboundLogs_updateConv]
    · split
      · rw [inboundLogs_buildSummaryPrompt, inboundLogs_updateConv]
      · rfl

theorem inboundLogs_handleCustomNightsState (env : Env) (db : Db) (conv : Conversation)
    (text : String) :
    inboundLogs (handleCustomNightsState env db conv text).1 = inboundLogs db := by
  unfold handleCustomNightsState
  split
  · rfl
  · dsimp only
    split
    · rfl
    · rw [inboundLogs_buildSummaryPrompt, inboundLogs_updateConv]

theorem inboundLogs_handleSummaryConfirmState (db : Db) (conv : Conversation)
    (text : String) :
    inboundLogs (handleSummaryConfirmState db conv text).1 = inboundLogs db := by
  unfold handleSummaryConfirmState
  dsimp only
  split
  · simp [inboundLogs_updateConv]
  · split <;> rfl

theorem inboundLogs_handleAwaitingPaymentState (env : Env) (db : Db)
    (conv : Conversation) (text : String) :
    inboundLogs (handleAwaitingPaymentState env db conv text).1 = inboundLogs db := by
  unfold handleAwaitingPaymentState
  dsimp only
  split
  · rfl
  · split
    · rfl
    · split
      · simp [inboundLogs_alertOwner]
      · split
        · rfl
        · split
          · rfl
          · split
            · simp [inboundLogs_alertOwner]
            · split
              · rfl
              · simp [inboundLogs_logSms_outbound]

theorem inboundLogs_createBooking (env : Env) (db : Db) (conv : Conversation) :
    inboundLogs (createBooking env db conv).1 = inboundLogs db := by
  unfold createBooking
  split
  · simp [inboundLogs_alertOwner]
  · split
    · simp [inboundLogs_alertOwner]
    · dsimp only
      rw [inboundLogs_logSms_outbound]
      simp [inboundLogs, updateConv]

theorem inboundLogs_dispatchState (env : Env) (db : Db) (conv : Conversation)
    (text : String) :
    inboundLogs (dispatchState env db conv text).1 = inboundLogs db := by
  unfold dispatchState
  cases conv.current_state
  case awaiting_location_or_lot_code => exact inboundLogs_handleLocationState env db conv text
  case awaiting_lot_choice => exact inboundLogs_handleLotChoiceState env db conv text
  case awaiting_name => exact inboundLogs_handleNameState env db conv text
  case awaiting_truck_type => exact inboundLogs_handleTruckTypeState env db conv text
  case awaiting_make_model => exact inboundLogs_handleMakeModelState env db conv text
  case awaiting_plate => exact inboundLogs_handlePlateState env db conv text
  case awaiting_stay_option => exact inboundLogs_handleStayOptionState env db conv text
  case awaiting_custom_nights => exact inboundLogs_handleCustomNightsState env db conv text
  case awaiting_summary_confirmation =>
    dsimp only
    split
    case h_1 db3 reply heq =>
      have h := inboundLogs_handleSummaryConfirmState db conv text
      rw [heq] at h
      exact h
    case h_2 db3 heq =>
      have h := inboundLogs_handleSummaryConfirmState db conv text
      rw [heq] at h
      rw [inboundLogs_createBooking]
      exact h
  case awaiting_payment => exact inboundLogs_handleAwaitingPaymentState env db conv _
  case cancelled => rfl
  case expired => rfl
  case completed => rfl


theorem inboundLogs_dbAfterExpiry (db : Db) (p : String) (now : Int) :
    inboundLogs (dbAfterExpiry db p now) = inboundLogs db := by
  unfold dbAfterExpiry
  split <;> rfl

theorem inboundLogs_bookBranch (db0 : Db) (hadConv : Bool)
    (phone text raw : String) (now : Int) :
    ∃ cid : Option Nat,
      inboundLogs (bookBranch db0 hadConv phone text raw now).1 =
        inboundLogs db0 ++
          [{ conversation_id := cid, phone := phone, direction := .inbound,
             body := text, raw := some (jsTake 8000 raw) }] := by
  unfold bookBranch
  refine ⟨some (if hadConv = true then deactivateActiveConversations db0 phone
    else db0).nextConvId, ?_⟩
  rw [inboundLogs_logSms_inbound]
  congr 1
  simp only [inboundLogs]
  cases hadConv <;> rfl

/-- C3 (amended): every inbound request that reaches `handleIncomingSms`
writes exactly one inbound log row (raw payload retained, truncated to
8000 characters) regardless of command, state or conversation presence;
the rate-limited and invalid-sender paths of `twilioWebhookHandler` reply
without reaching it (see the counterexample). -/
theorem c3_inbound_logged_once_amended (env : Env) (db : Db) (now : Int)
    (phone text raw : String) :
    ∃ cid : Option Nat,
      inboundLogs (handleIncomingSms env db now phone text raw).1 =
        inboundLogs db ++
          [{ conversation_id := cid, phone := phone, direction := .inbound,
             body := text, raw := some (jsTake 8000 raw) }] := by
  unfold handleIncomingSms
  split
  · exact ⟨none, inboundLogs_logSms_inbound db none phone text raw⟩
  · split
    · exact ⟨none, inboundLogs_logSms_inbound db none phone text raw⟩
    · split
      · exact ⟨none, inboundLogs_logSms_inbound db none phone text raw⟩
      · split
        · refine ⟨none, ?_⟩
          rw [inboundLogs_logSms_inbound, inboundLogs_deactivate]
        · split
          · refine ⟨none, ?_⟩
            rw [inboundLogs_logSms_inbound, inboundLogs_deactivate]
          · split
            · unfold supportBranch
              dsimp only
              split
              · refine ⟨none, ?_⟩
                rw [inboundLogs_alertOwner, inboundLogs_logSms_inbound]
              · exact ⟨none, inboundLogs_logSms_inbound db none phone text raw⟩
            · split
              · have h := inboundLogs_bookBranch (dbAfterExpiry db phone now)
                  (convAfterExpiry db phone now).isSome phone text raw now
                rw [inboundLogs_dbAfterExpiry] at h
                exact h
              · split
                · refine ⟨none, ?_⟩
                  rw [inboundLogs_logSms_inbound, inboundLogs_dbAfterExpiry]
                · rename_i conv heq
                  refine ⟨some conv.id, ?_⟩
                  rw [inboundLogs_dispatchState, inboundLogs_updateConv,
                      inboundLogs_logSms_inbound, inboundLogs_dbAfterExpiry]

/-- C2 (amended): a conversation idle for more than 30 minutes is
deactivated by the next inbound non-command message before normal
processing, but its `current_state` is set to `cancelled` (the handler
reuses `deactivateActiveConversations`); the driver is then treated as
having no active conversation and told to text BOOK.  The `expired`
terminal state is written only by the scheduler sweep
`expireIdleConversations`. -/
theorem c2_idle_expiry_amended (env : Env) (db : Db) (now : Int)
    (phone text raw : String) (conv : Conversation)
    (hconv : findActiveConversation db phone = some conv)
    (hstale : now - conv.last_inbound_at > 30 * 60 * 1000)
    (hDemo : upperOf text ≠ "DEMO") (hMenu : upperOf text ≠ "MENU")
    (hHelp : upperOf text ≠ "HELP") (hCancel : upperOf text ≠ "CANCEL")
    (hStop : upperOf text ≠ "STOP") (hReset : upperOf text ≠ "RESET")
    (hSupport : upperOf text ≠ "SUPPORT") (hBook : upperOf text ≠ "BOOK") :
    handleIncomingSms env db now phone text raw =
      (logSms (deactivateActiveConversations db phone) none phone .inbound
        text (some raw), noConversationReply) ∧
    (handleIncomingSms env db now phone text raw).1.conversations =
      db.conversations.map (deactPatch phone) ∧
    (∀ c ∈ db.conversations, c.phone = phone → c.is_active = true →
      (deactPatch phone c).is_active = false ∧
      (deactPatch phone c).current_state = ConvState.cancelled) ∧
    (expireIdleConversations db now 30).conversations =
      db.conversations.map (fun c =>
        if c.is_active && decide (c.last_inbound_at ≤ now - 30 * 60 * 1000) then
          { c with is_active := false, current_state := .expired }
        else c) := by
  have hstaleb : isStaleConv db phone now = true := by
    unfold isStaleConv
    rw [hconv]
    simpa using hstale
  have hmain : handleIncomingSms env db now phone text raw =
      (logSms (deactivateActiveConversations db phone) none phone .inbound
        text (some raw), noConversationReply) := by
    unfold handleIncomingSms
    rw [if_neg hDemo, if_neg hMenu, if_neg hHelp,
        if_neg (by rintro (h | h); exacts [hCancel h, hStop h]),
        if_neg hReset, if_neg hSupport, if_neg hBook]
    unfold convAfterExpiry dbAfterExpiry
    rw [hstaleb]
    simp
  refine ⟨hmain, ?_, ?_, rfl⟩
  · rw [hmain]
    rfl
  · intro c _ hp ha
    unfold deactPatch
    rw [if_pos (by simp [hp, ha])]
    exact ⟨rfl, rfl⟩

theorem c2_idle_expiry_witness :
    findActiveConversation staleDb "+15551234567" = some staleConv ∧
    ((31 * 60 * 1000 : Int) - staleConv.last_inbound_at > 30 * 60 * 1000) ∧
    handleIncomingSms emptyLotsEnv staleDb (31 * 60 * 1000) "+15551234567"
        "hello" "{}" =
      (logSms (deactivateActiveConversations staleDb "+15551234567") none
        "+15551234567" .inbound "hello" (some "{}"), noConversationReply) := by
  refine ⟨by decide, by decide, ?_⟩
  exact (c2_idle_expiry_amended emptyLotsEnv staleDb (31 * 60 * 1000)
    "+15551234567" "hello" "{}" staleConv (by decide) (by decide)
    (by decide) (by decide) (by decide) (by decide) (by decide) (by decide)
    (by decide) (by decide)).1

/-- C7: from any prior state of an active conversation (stale or fresh),
an inbound BOOK (case-insensitive, trimmed) deactivates that conversation
(together with every other active one for the phone) and inserts a fresh
conversation in `awaiting_location_or_lot_code`; the reply is the
location prompt (`bookPrompt` asks "Where do you want to park?"). -/
theorem c7_book_always_restarts (env : Env) (db : Db) (now : Int)
    (phone text raw : String) (conv : Conversation)
    (hBook : upperOf text = "BOOK")
    (hconv : findActiveConversation db phone = some conv) :
    (handleIncomingSms env db now phone text raw).1.conversations =
      mkNewConversation db.nextConvId phone now ::
        db.conversations.map (deactPatch phone) ∧
    (handleIncomingSms env db now phone text raw).2 = bookPrompt ∧
    (mkNewConversation db.nextConvId phone now).current_state =
      ConvState.awaiting_location_or_lot_code ∧
    (mkNewConversation db.nextConvId phone now).is_active = true ∧
    (∀ c ∈ db.conversations.map (deactPatch phone), c.phone = phone →
      c.is_active = false) := by
  have hb : handleIncomingSms env db now phone text raw =
      bookBranch (dbAfterExpiry db phone now)
        (convAfterExpiry db phone now).isSome phone text raw now := by
    unfold handleIncomingSms
    rw [if_neg (by rw [hBook]; decide), if_neg (by rw [hBook]; decide),
        if_neg (by rw [hBook]; decide),
        if_neg (by rw [hBook]; rintro (h | h) <;> simp at h),
        if_neg (by rw [hBook]; decide), if_neg (by rw [hBook]; decide),
        if_pos hBook]
  have hmap : ∀ c ∈ db.conversations.map (deactPatch phone), c.phone = phone →
      c.is_active = false := by
    intro c hc hp
    obtain ⟨c0, hc0, rfl⟩ := List.mem_map.mp hc
    unfold deactPatch
    unfold deactPatch at hp
    by_cases h : (c0.phone == phone && c0.is_active) = true
    · rw [if_pos h]
    · rw [if_neg h]
      rw [if_neg h] at hp
      simp only [Bool.and_eq_true, beq_iff_eq] at h
      rcases Bool.eq_false_or_eq_true c0.is_active with ha | ha
      · exact absurd ⟨hp, ha⟩ h
      · exact ha
  by_cases hstale : isStaleConv db phone now = true
  · have hdbe : dbAfterExpiry db phone now = deactivateActiveConversations db phone := by
      unfold dbAfterExpiry; rw [hstale]; rfl
    have hce : convAfterExpiry db phone now = none := by
      unfold convAfterExpiry; rw [hstale]; rfl
    rw [hb, hdbe, hce]
    unfold bookBranch
    exact ⟨rfl, rfl, rfl, rfl, hmap⟩
  · have hsf : isStaleConv db phone now = false := by
      rcases Bool.eq_false_or_eq_true (isStaleConv db phone now) with h | h
      · exact absurd h hstale
      · exact h
    have hdbe : dbAfterExpiry db phone now = db := by
      unfold dbAfterExpiry; rw [hsf]; rfl
    have hce : convAfterExpiry db phone now = some conv := by
      unfold convAfterExpiry; rw [hsf]; simpa using hconv
    rw [hb, hdbe, hce]
    unfold bookBranch
    exact ⟨rfl, rfl, rfl, rfl, hmap⟩

theorem c7_book_restart_witness :
    upperOf "book" = "BOOK" ∧
    findActiveConversation staleDb "+15551234567" = some staleConv ∧
    (handleIncomingSms emptyLotsEnv staleDb 0 "+15551234567" "book"
        "{}").1.conversations =
      mkNewConversation staleDb.nextConvId "+15551234567" 0 ::
        staleDb.conversations.map (deactPatch "+15551234567") ∧
    (handleIncomingSms emptyLotsEnv staleDb 0 "+15551234567" "book" "{}").2 =
      bookPrompt := by
  have h := c7_book_always_restarts emptyLotsEnv staleDb 0 "+15551234567"
    "book" "{}" staleConv (by decide) (by decide)
  exact ⟨by decide, by decide, h.1, h.2.1⟩


theorem find_patch_sched (l : List ScheduledMessage) (msg : ScheduledMessage)
    (patch : ScheduledMessage → ScheduledMessage)
    (hid : ∀ m, (patch m).id = m.id)
    (hmem : msg ∈ l) (hnd : (l.map ScheduledMessage.id).Nodup) :
    (l.map (fun m => if m.id == msg.id then patch m else m)).find?
        (fun m => m.id == msg.id) = some (patch msg) := by
  induction l with
  | nil => cases hmem
  | cons a t ih =>
    rw [List.map_cons] at hnd
    have hnd2 := List.nodup_cons.mp hnd
    by_cases ha : a.id = msg.id
    · have hma : msg = a := by
        rcases List.mem_cons.mp hmem with h | h
        · exact h
        · exfalso
          exact hnd2.1 (ha ▸ List.mem_map_of_mem ScheduledMessage.id h)
      subst hma
      simp only [List.map_cons, List.find?_cons]
      rw [if_pos (by simp)]
      have : ((patch msg).id == msg.id) = true := by simp [hid msg]
      simp [this]
    · have hmt : msg ∈ t := by
        rcases List.mem_cons.mp hmem with h | h
        · exact absurd (h ▸ rfl) ha
        · exact h
      simp only [List.map_cons, List.find?_cons]
      rw [if_neg (by simpa using ha)]
      have : (a.id == msg.id) = false := by simpa using ha
      simp only [this]
      exact ih hmt hnd2.2

theorem findSched_markSchedSent (db : Db) (msg : ScheduledMessage) (now : Int)
    (err : Option String) (hmem : msg ∈ db.scheduled_messages)
    (hnd : SchedIdsNodup db) :
    findSched (markSchedSent db msg.id now err) msg.id =
      some { msg with sent_at := some now, last_error := err } := by
  unfold findSched markSchedSent
  exact find_patch_sched _ msg _ (fun m => rfl) hmem hnd

theorem findSched_recordSchedError (db : Db) (msg : ScheduledMessage)
    (err : String) (hmem : msg ∈ db.scheduled_messages)
    (hnd : SchedIdsNodup db) :
    findSched (recordSchedError db msg.id err) msg.id =
      some { msg with last_error := some err } := by
  unfold findSched recordSchedError
  exact find_patch_sched _ msg _ (fun m => rfl) hmem hnd


theorem sentTexts_db0 (c : Prop) [Decidable c] (db : Db) (m : String) :
    (if c then alertOwner db m else db).sentTexts = db.sentTexts := by
  split <;> rfl

/-- C8: for every due scheduled message, a missing lot review link, a
missing parent booking or a parent booking not in status `confirmed`
sets `sent_at` with an explanatory `last_error` and sends no text (never
retried, since the due query filters on `sent_at is null`); a successful
send sets `sent_at` (clearing `last_error`) after exactly one text; an
exception at the send records `last_error` but leaves `sent_at` null so
the item is retried on the next poll.  Each message is therefore
dispatched at most once per its `sent_at` marker. -/
theorem c8_scheduler_dispatch_rules :
    (∀ (env : Env) (db : Db) (now : Int) (msg : ScheduledMessage),
      msg ∈ db.scheduled_messages → SchedIdsNodup db →
      jsStrOpt ((env.lotById msg.lot_id).bind Lot.review_url) = none →
      findSched (runDueReviewItem env now db msg) msg.id =
        some { msg with sent_at := some now,
                        last_error := some "no review_url on lot" } ∧
      (runDueReviewItem env now db msg).sentTexts = db.sentTexts) ∧
    (∀ (env : Env) (db : Db) (now : Int) (msg : ScheduledMessage) (url : String),
      msg ∈ db.scheduled_messages → SchedIdsNodup db →
      jsStrOpt ((env.lotById msg.lot_id).bind Lot.review_url) = some url →
      db.bookings.find? (fun b => b.id == msg.booking_id) = none →
      findSched (runDueReviewItem env now db msg) msg.id =
        some { msg with sent_at := some now,
                        last_error := some "booking not found" } ∧
      (runDueReviewItem env now db msg).sentTexts = db.sentTexts) ∧
    (∀ (env : Env) (db : Db) (now : Int) (msg : ScheduledMessage) (url : String)
        (booking : Booking),
      msg ∈ db.scheduled_messages → SchedIdsNodup db →
      jsStrOpt ((env.lotById msg.lot_id).bind Lot.review_url) = some url →
      db.bookings.find? (fun b => b.id == msg.booking_id) = some booking →
      booking.status ≠ "confirmed" →
      findSched (runDueReviewItem env now db msg) msg.id =
        some { msg with sent_at := some now,
                        last_error :=
                          some ("skipped: booking status = " ++ booking.status) } ∧
      (runDueReviewItem env now db msg).sentTexts = db.sentTexts) ∧
    (∀ (env : Env) (db : Db) (now : Int) (msg : ScheduledMessage) (url : String)
        (booking : Booking),
      msg ∈ db.scheduled_messages → SchedIdsNodup db →
      jsStrOpt ((env.lotById msg.lot_id).bind Lot.review_url) = some url →
      db.bookings.find? (fun b => b.id == msg.booking_id) = some booking →
      booking.status = "confirmed" → env.sendThrows msg.id = false →
      findSched (runDueReviewItem env now db msg) msg.id =
        some { msg with sent_at := some now, last_error := none } ∧
      (runDueReviewItem env now db msg).sentTexts.length =
        db.sentTexts.length + 1) ∧
    (∀ (env : Env) (db : Db) (now : Int) (msg : ScheduledMessage) (url : String)
        (booking : Booking),
      msg ∈ db.scheduled_messages → SchedIdsNodup db →
      jsStrOpt ((env.lotById msg.lot_id).bind Lot.review_url) = some url →
      db.bookings.find? (fun b => b.id == msg.booking_id) = some booking →
      booking.status = "confirmed" → env.sendThrows msg.id = true →
      findSched (runDueReviewItem env now db msg) msg.id =
        some { msg with last_error := some env.sendErrMsg } ∧
      (runDueReviewItem env now db msg).sentTexts = db.sentTexts) ∧
    (∀ (db : Db) (now : Int) (m : ScheduledMessage),
      m ∈ dueMessages db now → m.sent_at = none ∧ m.send_at ≤ now) ∧
    (∀ (env : Env) (db : Db) (now : Int),
      runDueReviewMessages env db now =
        (dueMessages db now).foldl (runDueReviewItem env now) db) := by
  refine ⟨?_, ?_, ?_, ?_, ?_, ?_, fun env db now => rfl⟩
  · intro env db now msg hmem hnd hurl
    unfold runDueReviewItem
    dsimp only
    rw [hurl]
    have hsch : (if env.lotById msg.lot_id = none
        then alertOwner db "Error loading lot for review nudge"
        else db).scheduled_messages = db.scheduled_messages := by
      split <;> rfl
    constructor
    · refine findSched_markSchedSent _ msg now _ ?_ ?_
      · rw [hsch]; exact hmem
      · show ((if env.lotById msg.lot_id = none
            then alertOwner db "Error loading lot for review nudge"
            else db).scheduled_messages.map ScheduledMessage.id).Nodup
        rw [hsch]; exact hnd
    · exact sentTexts_db0 _ db _
  · intro env db now msg url hmem hnd hurl hbook
    unfold runDueReviewItem
    dsimp only
    rw [hurl]
    have hbk : (if env.lotById msg.lot_id = none
        then alertOwner db "Error loading lot for review nudge"
        else db).bookings = db.bookings := by
      split <;> rfl
    rw [hbk, hbook]
    have hsch : ∀ a : String, (alertOwner (if env.lotById msg.lot_id = none
        then alertOwner db "Error loading lot for review nudge"
        else db) a).scheduled_messages = db.scheduled_messages := by
      intro a; unfold alertOwner; split <;> rfl
    constructor
    · refine findSched_markSchedSent _ msg now _ ?_ ?_
      · rw [hsch]; exact hmem
      · show ((alertOwner (if env.lotById msg.lot_id = none
            then alertOwner db "Error loading lot for review nudge"
            else db) "Error loading booking for review nudge").scheduled_messages.map
              ScheduledMessage.id).Nodup
        rw [hsch]; exact hnd
    · exact sentTexts_db0 _ db _
  · intro env db now msg url booking hmem hnd hurl hbook hstat
    unfold runDueReviewItem
    dsimp only
    rw [hurl]
    have hbk : (if env.lotById msg.lot_id = none
        then alertOwner db "Error loading lot for review nudge"
        else db).bookings = db.bookings := by
      split <;> rfl
    rw [hbk, hbook]
    dsimp only
    rw [if_pos hstat]
    have hsch : (if env.lotById msg.lot_id = none
        then alertOwner db "Error loading lot for review nudge"
        else db).scheduled_messages = db.scheduled_messages := by
      split <;> rfl
    constructor
    · refine findSched_markSchedSent _ msg now _ ?_ ?_
      · rw [hsch]; exact hmem
      · show ((if env.lotById msg.lot_id = none
            then alertOwner db "Error loading lot for review nudge"
            else db).scheduled_messages.map ScheduledMessage.id).Nodup
        rw [hsch]; exact hnd
    · exact sentTexts_db0 _ db _
  · intro env db now msg url booking hmem hnd hurl hbook hstat hthrow
    unfold runDueReviewItem
    dsimp only
    rw [hurl]
    have hbk : (if env.lotById msg.lot_id = none
        then alertOwner db "Error loading lot for review nudge"
        else db).bookings = db.bookings := by
      split <;> rfl
    rw [hbk, hbook]
    dsimp only
    rw [if_neg (by simp [hstat])]
    rw [hthrow]
    simp only [Bool.false_eq_true, if_false, ite_false]
    have hsch : ∀ b : String, (sendText (if env.lotById msg.lot_id = none
        then alertOwner db "Error loading lot for review nudge"
        else db) msg.phone b).scheduled_messages = db.scheduled_messages := by
      intro b; unfold sendText; split <;> rfl
    constructor
    · refine findSched_markSchedSent _ msg now _ ?_ ?_
      · rw [hsch]; exact hmem
      · unfold SchedIdsNodup
        rw [hsch]; exact hnd
    · have h := sentTexts_db0 (env.lotById msg.lot_id = none) db
        "Error loading lot for review nudge"
      show ((if env.lotById msg.lot_id = none
          then alertOwner db "Error loading lot for review nudge"
          else db).sentTexts ++ _).length = db.sentTexts.length + 1
      rw [h]
      simp
  · intro env db now msg url booking hmem hnd hurl hbook hstat hthrow
    unfold runDueReviewItem
    dsimp only
    rw [hurl]
    have hbk : (if env.lotById msg.lot_id = none
        then alertOwner db "Error loading lot for review nudge"
        else db).bookings = db.bookings := by
      split <;> rfl
    rw [hbk, hbook]
    dsimp only
    rw [if_neg (by simp [hstat])]
    rw [hthrow]
    simp only [if_true, ite_true]
    have hsch : ∀ a : String, (alertOwner (if env.lotById msg.lot_id = none
        then alertOwner db "Error loading lot for review nudge"
        else db) a).scheduled_messages = db.scheduled_messages := by
      intro a; unfold alertOwner; split <;> rfl
    constructor
    · refine findSched_recordSchedError _ msg _ ?_ ?_
      · rw [hsch]; exact hmem
      · show ((alertOwner (if env.lotById msg.lot_id = none
            then alertOwner db "Error loading lot for review nudge"
            else db) "Error sending scheduled message").scheduled_messages.map
              ScheduledMessage.id).Nodup
        rw [hsch]; exact hnd
    · exact sentTexts_db0 _ db _
  · intro db now m hm
    unfold dueMessages at hm
    have hm2 := List.mem_of_mem_take hm
    have hm3 := List.mem_filter.mp hm2
    constructor
    · have := hm3.2
      simp only [Bool.and_eq_true, Option.isNone_iff_eq_none, decide_eq_true_eq] at this
      exact this.1
    · have := hm3.2
      simp only [Bool.and_eq_true, Option.isNone_iff_eq_none, decide_eq_true_eq] at this
      exact this.2


theorem c8_scheduler_witness :
    schedMsg ∈ schedDb.scheduled_messages ∧ SchedIdsNodup schedDb ∧
    jsStrOpt ((schedEnv.lotById schedMsg.lot_id).bind Lot.review_url) =
      some "https://g.page/r/bozeman" ∧
    schedDb.bookings.find? (fun b => b.id == schedMsg.booking_id) =
      some confirmedBooking ∧
    confirmedBooking.status = "confirmed" ∧
    schedEnv.sendThrows schedMsg.id = false ∧
    findSched (runDueReviewItem schedEnv 10 schedDb schedMsg) schedMsg.id =
      some { schedMsg with sent_at := some 10, last_error := none } ∧
    (runDueReviewItem schedEnv 10 schedDb schedMsg).sentTexts.length =
      schedDb.sentTexts.length + 1 := by
  have h := c8_scheduler_dispatch_rules.2.2.2.1 schedEnv schedDb 10 schedMsg
    "https://g.page/r/bozeman" confirmedBooking (by decide) (by decide)
    (by decide) (by decide) (by decide) (by decide)
  exact ⟨by decide, by decide, by decide, by decide, by decide, by decide,
    h.1, h.2⟩


theorem convMapSpec_refl (db : Db) (tid : Nat) (src : ConvState) :
    ConvMapSpec db db tid src :=
  ⟨id, (List.map_id _).symm, fun _ => ⟨rfl, rfl⟩, fun _ _ => rfl,
   fun _ => Or.inl rfl, fun _ => Or.inl rfl⟩

theorem convMapSpec_congr {db db2 db3 : Db} {tid : Nat} {src : ConvState}
    (h : ConvMapSpec db db2 tid src)
    (heq : db3.conversations = db2.conversations) :
    ConvMapSpec db db3 tid src := by
  obtain ⟨f, h1, h2, h3, h4, h5⟩ := h
  exact ⟨f, heq ▸ h1, h2, h3, h4, h5⟩

theorem convMapSpec_trans {db db2 db3 : Db} {tid : Nat} {src : ConvState}
    (hA : ConvMapSpec db db2 tid src) (hB : ConvMapSpec db2 db3 tid src) :
    ConvMapSpec db db3 tid src := by
  obtain ⟨f, f1, f2, f3, f4, f5⟩ := hA
  obtain ⟨g, g1, g2, g3, g4, g5⟩ := hB
  refine ⟨fun c => g (f c), ?_, ?_, ?_, ?_, ?_⟩
  · rw [g1, f1, List.map_map]; rfl
  · intro c
    exact ⟨((g2 (f c)).1).trans (f2 c).1, ((g2 (f c)).2).trans (f2 c).2⟩
  · intro c h
    show g (f c) = c
    rw [f3 c h, g3 c h]
  · intro c
    rcases g4 (f c) with h | h
    · rcases f4 c with h2 | h2
      · exact Or.inl (h.trans h2)
      · exact Or.inr (h ▸ h2)
    · exact Or.inr h
  · intro c
    rcases g5 (f c) with h | h
    · rcases f5 c with h2 | h2
      · exact Or.inl (h.trans h2)
      · exact Or.inr (h ▸ h2)
    · exact Or.inr h

theorem convMapSpec_updateConv_of (db dbMid : Db)
    (hmid : dbMid.conversations = db.conversations) (tid : Nat) (src : ConvState)
    (g : Conversation → Conversation)
    (hid : ∀ c, (g c).id = c.id) (hphone : ∀ c, (g c).phone = c.phone)
    (hstate : ∀ c, (g c).current_state = c.current_state ∨
      allowedStep src (g c).current_state)
    (hact : ∀ c, (g c).is_active = c.is_active ∨ (g c).is_active = false) :
    ConvMapSpec db (updateConv dbMid tid g) tid src := by
  refine ⟨fun c => if c.id == tid then g c else c, ?_, ?_, ?_, ?_, ?_⟩
  · show (updateConv dbMid tid g).conversations = _
    unfold updateConv
    rw [hmid]
  · intro c
    by_cases h : c.id == tid <;> simp [h, hid c, hphone c]
  · intro c h
    simp [h]
  · intro c
    by_cases h : c.id == tid
    · simpa [h] using hstate c
    · simp [h]
  · intro c
    by_cases h : c.id == tid
    · simpa [h] using hact c
    · simp [h]

theorem convMapSpec_updateConv (db : Db) (tid : Nat) (src : ConvState)
    (g : Conversation → Conversation)
    (hid : ∀ c, (g c).id = c.id) (hphone : ∀ c, (g c).phone = c.phone)
    (hstate : ∀ c, (g c).current_state = c.current_state ∨
      allowedStep src (g c).current_state)
    (hact : ∀ c, (g c).is_active = c.is_active ∨ (g c).is_active = false) :
    ConvMapSpec db (updateConv db tid g) tid src :=
  convMapSpec_updateConv_of db db rfl tid src g hid hphone hstate hact


theorem convSpec_handleLocationState (env : Env) (db : Db) (conv : Conversation)
    (text : String) :
    ConvMapSpec db (handleLocationState env db conv text).1 conv.id
      .awaiting_location_or_lot_code := by
  unfold handleLocationState
  dsimp only
  split
  · exact convMapSpec_updateConv db conv.id _
      (fun c => { c with location_raw_input := jsTrim text })
      (fun c => rfl) (fun c => rfl) (fun c => Or.inl rfl) (fun c => Or.inl rfl)
  · split
    · exact convMapSpec_updateConv db conv.id _
        (fun c => { c with location_raw_input := jsTrim text })
        (fun c => rfl) (fun c => rfl) (fun c => Or.inl rfl) (fun c => Or.inl rfl)
    · refine convMapSpec_trans
        (convMapSpec_updateConv db conv.id _
          (fun c => { c with location_raw_input := jsTrim text })
          (fun c => rfl) (fun c => rfl) (fun c => Or.inl rfl)
          (fun c => Or.inl rfl)) ?_
      apply convMapSpec_updateConv
      · exact fun c => rfl
      · exact fun c => rfl
      · exact fun c => Or.inr (of_decide_eq_true rfl)
      · exact fun c => Or.inl rfl
  · refine convMapSpec_trans
      (convMapSpec_updateConv db conv.id _
        (fun c => { c with location_raw_input := jsTrim text })
        (fun c => rfl) (fun c => rfl) (fun c => Or.inl rfl)
        (fun c => Or.inl rfl)) ?_
    apply convMapSpec_updateConv
    · exact fun c => rfl
    · exact fun c => rfl
    · exact fun c => Or.inr (of_decide_eq_true rfl)
    · exact fun c => Or.inl rfl

theorem convSpec_handleLotChoiceState (env : Env) (db : Db) (conv : Conversation)
    (text : String) :
    ConvMapSpec db (handleLotChoiceState env db conv text).1 conv.id
      .awaiting_lot_choice := by
  unfold handleLotChoiceState
  split
  · exact convMapSpec_refl db conv.id _
  · dsimp only
    split
    · exact convMapSpec_refl db conv.id _
    · split
      · exact convMapSpec_refl db conv.id _
      · split
        · exact convMapSpec_refl db conv.id _
        · apply convMapSpec_updateConv
          · exact fun c => rfl
          · exact fun c => rfl
          · exact fun c => Or.inr (of_decide_eq_true rfl)
          · exact fun c => Or.inl rfl

theorem convSpec_handleNameState (env : Env) (db : Db) (conv : Conversation)
    (text : String) :
    ConvMapSpec db (handleNameState env db conv text).1 conv.id
      .awaiting_name := by
  unfold handleNameState
  dsimp only
  split
  · exact convMapSpec_refl db conv.id _
  · apply convMapSpec_updateConv
    · exact fun c => rfl
    · exact fun c => rfl
    · exact fun c => Or.inr (of_decide_eq_true rfl)
    · exact fun c => Or.inl rfl

theorem convSpec_handleTruckTypeState (env : Env) (db : Db) (conv : Conversation)
    (text : String) :
    ConvMapSpec db (handleTruckTypeState env db conv text).1 conv.id
      .awaiting_truck_type := by
  unfold handleTruckTypeState
  dsimp only
  split
  · exact convMapSpec_refl db conv.id _
  · apply convMapSpec_updateConv
    · exact fun c => rfl
    · exact fun c => rfl
    · exact fun c => Or.inr (of_decide_eq_true rfl)
    · exact fun c => Or.inl rfl

theorem convSpec_handleMakeModelState (env : Env) (db : Db) (conv : Conversation)
    (text : String) :
    ConvMapSpec db (handleMakeModelState env db conv text).1 conv.id
      .awaiting_make_model := by
  unfold handleMakeModelState
  dsimp only
  split
  · exact convMapSpec_refl db conv.id _
  · apply convMapSpec_updateConv
    · exact fun c => rfl
    · exact fun c => rfl
    · exact fun c => Or.inr (of_decide_eq_true rfl)
    · exact fun c => Or.inl rfl

theorem convSpec_handlePlateState (env : Env) (db : Db) (conv : Conversation)
    (text : String) :
    ConvMapSpec db (handlePlateState env db conv text).1 conv.id
      .awaiting_plate := by
  unfold handlePlateState
  dsimp only
  split
  · exact convMapSpec_refl db conv.id _
  · apply convMapSpec_updateConv
    · exact fun c => rfl
    · exact fun c => rfl
    · exact fun c => Or.inr (of_decide_eq_true rfl)
    · exact fun c => Or.inl rfl

theorem convSpec_buildSummaryPrompt (env : Env) (db : Db) (cid : Nat)
    (st : String) (n : Nat) (src : ConvState) :
    ConvMapSpec db (buildSummaryPrompt env db cid st n).1 cid src := by
  unfold buildSummaryPrompt
  split
  · exact convMapSpec_congr (convMapSpec_refl db cid src) rfl
  · split
    · exact convMapSpec_congr (convMapSpec_refl db cid src) rfl
    · apply convMapSpec_updateConv
      · exact fun c => rfl
      · exact fun c => rfl
      · exact fun c => Or.inl rfl
      · exact fun c => Or.inl rfl

theorem convSpec_handleStayOptionState (env : Env) (db : Db) (conv : Conversation)
    (text : String) :
    ConvMapSpec db (handleStayOptionState env db conv text).1 conv.id
      .awaiting_stay_option := by
  unfold handleStayOptionState
  split
  · exact convMapSpec_refl db conv.id _
  · dsimp only
    split
    · apply convMapSpec_updateConv
      · exact fun c => rfl
      · exact fun c => rfl
      · exact fun c => Or.inr (of_decide_eq_true rfl)
      · exact fun c => Or.inl rfl
    · split
      · rename_i n heq h4 h123
        refine convMapSpec_trans
          (convMapSpec_updateConv db conv.id _
            (fun c => { c with
              stay_type := if n = 1 then "overnight"
                else if n = 2 then "weekly" else "monthly",
              nights := if n = 1 then 1 else if n = 2 then 7 else 30,
              current_state := .awaiting_summary_confirmation })
            (fun c => rfl) (fun c => rfl) (fun c => Or.inr (of_decide_eq_true rfl))
            (fun c => Or.inl rfl)) ?_
        exact convSpec_buildSummaryPrompt env _ conv.id _ _ _
      · exact convMapSpec_refl db conv.id _

theorem convSpec_handleCustomNightsState (env : Env) (db : Db) (conv : Conversation)
    (text : String) :
    ConvMapSpec db (handleCustomNightsState env db conv text).1 conv.id
      .awaiting_custom_nights := by
  unfold handleCustomNightsState
  split
  · exact convMapSpec_refl db conv.id _
  · dsimp only
    split
    · exact convMapSpec_refl db conv.id _
    · rename_i n heq hrange
      refine convMapSpec_trans
        (convMapSpec_updateConv db conv.id _
          (fun c => { c with
            stay_type := "custom",
            nights := n.toNat,
            current_state := .awaiting_summary_confirmation })
          (fun c => rfl) (fun c => rfl) (fun c => Or.inr (of_decide_eq_true rfl))
          (fun c => Or.inl rfl)) ?_
      exact convSpec_buildSummaryPrompt env _ conv.id _ _ _

theorem convSpec_handleSummaryConfirmState (db : Db) (conv : Conversation)
    (text : String) :
    ConvMapSpec db (handleSummaryConfirmState db conv text).1 conv.id
      .awaiting_summary_confirmation := by
  unfold handleSummaryConfirmState
  dsimp only
  split
  · exact convMapSpec_updateConv db conv.id _ _ (fun c => rfl) (fun c => rfl)
      (fun c => Or.inr (of_decide_eq_true rfl)) (fun c => Or.inr rfl)
  · split
    · exact convMapSpec_refl db conv.id _
    · exact convMapSpec_refl db conv.id _

theorem convSpec_handleAwaitingPaymentState (env : Env) (db : Db)
    (conv : Conversation) (text : String) :
    ConvMapSpec db (handleAwaitingPaymentState env db conv text).1 conv.id
      .awaiting_payment := by
  unfold handleAwaitingPaymentState
  dsimp only
  split
  · exact convMapSpec_refl db conv.id _
  · split
    · exact convMapSpec_refl db conv.id _
    · split
      · exact convMapSpec_congr (convMapSpec_refl db conv.id _) rfl
      · split
        · exact convMapSpec_refl db conv.id _
        · split
          · exact convMapSpec_refl db conv.id _
          · split
            · exact convMapSpec_congr (convMapSpec_refl db conv.id _) rfl
            · split
              · exact convMapSpec_refl db conv.id _
              · exact convMapSpec_congr (convMapSpec_refl db conv.id _) rfl

theorem convSpec_createBooking (env : Env) (db : Db) (conversation : Conversation) :
    ConvMapSpec db (createBooking env db conversation).1 conversation.id
      .awaiting_summary_confirmation := by
  unfold createBooking
  split
  · exact convMapSpec_congr (convMapSpec_refl db conversation.id _) rfl
  · rename_i conv hconv
    split
    · exact convMapSpec_congr (convMapSpec_refl db conversation.id _) rfl
    · dsimp only
      have hcid : conv.id = conversation.id := by
        simpa using findConversation_id_eq hconv
      refine convMapSpec_congr ?_ rfl
      rw [← hcid]
      apply convMapSpec_updateConv_of db _ rfl
      · exact fun c => rfl
      · exact fun c => rfl
      · exact fun c => Or.inr (of_decide_eq_true rfl)
      · exact fun c => Or.inl rfl

theorem getD_findConversation_id (db : Db) (conv : Conversation) :
    ((findConversation db conv.id).getD conv).id = conv.id := by
  cases h : findConversation db conv.id with
  | none => rfl
  | some c => simpa using findConversation_id_eq h

theorem convSpec_dispatchState (env : Env) (db2 : Db) (conv : Conversation)
    (text : String) :
    ConvMapSpec db2 (dispatchState env db2 conv text).1 conv.id
      conv.current_state := by
  unfold dispatchState
  split <;> try (rename_i hst; rw [hst])
  · exact convSpec_handleLocationState env db2 conv text
  · exact convSpec_handleLotChoiceState env db2 conv text
  · exact convSpec_handleNameState env db2 conv text
  · exact convSpec_handleTruckTypeState env db2 conv text
  · exact convSpec_handleMakeModelState env db2 conv text
  · exact convSpec_handlePlateState env db2 conv text
  · exact convSpec_handleStayOptionState env db2 conv text
  · exact convSpec_handleCustomNightsState env db2 conv text
  · dsimp only
    split <;> rename_i db3 heq
    · rename_i reply
      have h1 := convSpec_handleSummaryConfirmState db2 conv text
      rw [heq] at h1
      exact h1
    · have h1 := convSpec_handleSummaryConfirmState db2 conv text
      rw [heq] at h1
      refine convMapSpec_trans h1 ?_
      have h2 := convSpec_createBooking env db3
        ((findConversation db3 conv.id).getD conv)
      rw [getD_findConversation_id] at h2
      exact h2
  · exact convSpec_handleAwaitingPaymentState env db2 conv _
  · exact convMapSpec_refl db2 conv.id _

/-! ## Stepping lemmas for claim C5 -/

theorem forall2_convStepOk_map (l : List Conversation)
    (f : Conversation → Conversation) (h : ∀ c ∈ l, convStepOk c (f c)) :
    List.Forall₂ convStepOk l (l.map f) := by
  induction l with
  | nil => exact List.Forall₂.nil
  | cons a t ih =>
    exact List.Forall₂.cons (h a (List.mem_cons_self a t))
      (ih (fun c hc => h c (List.mem_cons_of_mem a hc)))

theorem forall2_convStepOk_refl (l : List Conversation) :
    List.Forall₂ convStepOk l l := by
  have h := forall2_convStepOk_map l id (fun c _ => ⟨rfl, Or.inl rfl⟩)
  simpa using h

theorem convStepOk_deactPatch (phone : String) (c : Conversation) :
    convStepOk c (deactPatch phone c) := by
  unfold convStepOk deactPatch
  split
  · exact ⟨rfl, Or.inr (Or.inr rfl)⟩
  · exact ⟨rfl, Or.inl rfl⟩

theorem deactPatch_idem (phone : String) (c : Conversation) :
    deactPatch phone (deactPatch phone c) = deactPatch phone c := by
  unfold deactPatch
  by_cases h : (c.phone == phone && c.is_active) = true
  · rw [if_pos h, if_neg (by simp)]
  · rw [if_neg h, if_neg h]

theorem forall2_convStepOk_deact (db : Db) (phone : String) :
    List.Forall₂ convStepOk db.conversations
      (deactivateActiveConversations db phone).conversations :=
  forall2_convStepOk_map _ _ (fun c _ => convStepOk_deactPatch phone c)

theorem forall2_convStepOk_dbAfterExpiry (db : Db) (phone : String)
    (now : Int) :
    List.Forall₂ convStepOk db.conversations
      (dbAfterExpiry db phone now).conversations := by
  unfold dbAfterExpiry
  split
  · exact forall2_convStepOk_deact db phone
  · exact forall2_convStepOk_refl _

theorem forall2_convStepOk_deact_after (db : Db) (phone : String)
    (now : Int) :
    List.Forall₂ convStepOk db.conversations
      (deactivateActiveConversations (dbAfterExpiry db phone now)
        phone).conversations := by
  unfold dbAfterExpiry
  split
  · show List.Forall₂ convStepOk db.conversations
      ((db.conversations.map (deactPatch phone)).map (deactPatch phone))
    rw [List.map_map]
    have hcomp : (deactPatch phone ∘ deactPatch phone) = deactPatch phone :=
      funext (deactPatch_idem phone)
    rw [hcomp]
    exact forall2_convStepOk_deact db phone
  · exact forall2_convStepOk_deact db phone

theorem convStep_of_mapSpec (db db2 : Db) (conv : Conversation)
    (hnd : ConvIdsNodup db) (hmem : conv ∈ db.conversations)
    (h : ConvMapSpec db db2 conv.id conv.current_state) :
    List.Forall₂ convStepOk db.conversations db2.conversations := by
  obtain ⟨f, h1, h2, h3, h4, h5⟩ := h
  rw [h1]
  apply forall2_convStepOk_map
  intro c hc
  by_cases hcid : c.id = conv.id
  · have hnd2 : (db.conversations.map Conversation.id).Nodup := hnd
    have hceq : c = conv := List.inj_on_of_nodup_map hnd2 hc hmem hcid
    subst hceq
    refine ⟨(h2 c).1, ?_⟩
    rcases h4 c with hs | hs
    · exact Or.inl hs
    · exact hs
  · rw [h3 c hcid]
    exact ⟨rfl, Or.inl rfl⟩

theorem findActiveConversation_mem {db : Db} {phone : String}
    {conv : Conversation} (h : findActiveConversation db phone = some conv) :
    conv ∈ db.conversations ∧ (conv.phone == phone && conv.is_active) = true := by
  unfold findActiveConversation at h
  cases hf : db.conversations.filter (fun c => c.phone == phone && c.is_active) with
  | nil => rw [hf] at h; simp at h
  | cons x xs =>
    rw [hf] at h
    have hx : x = conv := by simpa using h
    have hmf : conv ∈ db.conversations.filter
        (fun c => c.phone == phone && c.is_active) := by
      rw [hf, ← hx]; exact List.mem_cons_self _ _
    exact ⟨(List.mem_filter.1 hmf).1, (List.mem_filter.1 hmf).2⟩

/-- Crossing one allowed edge only adds the source state to what must
have been visited. -/
theorem edge_required : ∀ s t : ConvState, allowedStep s t →
    ∀ r ∈ requiredBefore t, r ∈ requiredBefore s ∨ r = s := by decide

/-- Along any path that follows `allowedStep`, every state required
before the final state has been visited (the start counts as visited). -/
theorem okPath_required_mem (path : List ConvState) :
    ∀ s : ConvState, okPath s path → ∀ t : ConvState,
      path.getLast? = some t →
      ∀ r ∈ requiredBefore t, r ∈ s :: path ∨ r ∈ requiredBefore s := by
  induction path with
  | nil => intro s _ t ht; simp at ht
  | cons a rest ih =>
    intro s hp t ht r hr
    obtain ⟨hstep, hrest⟩ := hp
    by_cases hnil : rest = []
    · subst hnil
      have hta : a = t := by simpa using ht
      subst hta
      rcases edge_required s a hstep r hr with h | h
      · exact Or.inr h
      · exact Or.inl (by simp [h])
    · obtain ⟨b, rest2, rfl⟩ := List.exists_cons_of_ne_nil hnil
      have hlast : (b :: rest2).getLast? = some t := by simpa using ht
      rcases ih a hrest t hlast r hr with h | h
      · rcases List.mem_cons.1 h with h3 | h3
        · exact Or.inl (by simp [h3])
        · exact Or.inl (List.mem_cons_of_mem _ (List.mem_cons_of_mem _ h3))
      · rcases edge_required s a hstep r h with h2 | h2
        · exact Or.inr h2
        · exact Or.inl (by simp [h2])

/-- C5: for every conversation and every inbound request, the
`current_state` of each existing row only stays put, moves along an edge
of the section 4.2 transition table, or jumps to a terminal state, and
every newly inserted row starts at `awaiting_location_or_lot_code`;
moreover along any `allowedStep` path from the start state, every state
required before the final state (in particular all required intermediate
states of `awaiting_summary_confirmation` and `awaiting_payment`) has
been visited. -/
theorem c5_state_transitions_follow_table (env : Env) (db : Db) (now : Int)
    (phone text raw : String) (hnd : ConvIdsNodup db) :
    (∃ news rest,
      (handleIncomingSms env db now phone text raw).1.conversations
          = news ++ rest ∧
      List.Forall₂ convStepOk db.conversations rest ∧
      ∀ c ∈ news, c.current_state = ConvState.awaiting_location_or_lot_code) ∧
    (∀ path : List ConvState,
      okPath ConvState.awaiting_location_or_lot_code path →
      ∀ t : ConvState, path.getLast? = some t →
      ∀ r ∈ requiredBefore t,
        r ∈ ConvState.awaiting_location_or_lot_code :: path) := by
  constructor
  · unfold handleIncomingSms
    split
    · exact ⟨[], db.conversations, rfl, forall2_convStepOk_refl _, by simp⟩
    · split
      · exact ⟨[], db.conversations, rfl, forall2_convStepOk_refl _, by simp⟩
      · split
        · exact ⟨[], db.conversations, rfl, forall2_convStepOk_refl _, by simp⟩
        · split
          · exact ⟨[], (deactivateActiveConversations db phone).conversations,
              rfl, forall2_convStepOk_deact db phone, by simp⟩
          · split
            · exact ⟨[], (deactivateActiveConversations db phone).conversations,
                rfl, forall2_convStepOk_deact db phone, by simp⟩
            · split
              · unfold supportBranch
                dsimp only
                split
                · exact ⟨[], db.conversations, rfl,
                    forall2_convStepOk_refl _, by simp⟩
                · exact ⟨[], db.conversations, rfl,
                    forall2_convStepOk_refl _, by simp⟩
              · split
                · unfold bookBranch
                  dsimp only
                  split
                  · exact ⟨[mkNewConversation
                        (deactivateActiveConversations
                          (dbAfterExpiry db phone now) phone).nextConvId
                        phone now],
                      (deactivateActiveConversations
                        (dbAfterExpiry db phone now) phone).conversations,
                      rfl, forall2_convStepOk_deact_after db phone now,
                      by intro c hc; rw [List.mem_singleton] at hc;
                         subst hc; rfl⟩
                  · exact ⟨[mkNewConversation
                        (dbAfterExpiry db phone now).nextConvId phone now],
                      (dbAfterExpiry db phone now).conversations, rfl,
                      forall2_convStepOk_dbAfterExpiry db phone now,
                      by intro c hc; rw [List.mem_singleton] at hc;
                         subst hc; rfl⟩
                · split
                  · exact ⟨[], (dbAfterExpiry db phone now).conversations,
                      rfl, forall2_convStepOk_dbAfterExpiry db phone now,
                      by simp⟩
                  · rename_i conv heq
                    have hsf : isStaleConv db phone now = false ∧
                        findActiveConversation db phone = some conv := by
                      unfold convAfterExpiry at heq
                      by_cases hs : isStaleConv db phone now = true
                      · rw [if_pos hs] at heq; exact absurd heq (by simp)
                      · have hs2 : isStaleConv db phone now = false := by
                          simpa using hs
                        rw [if_neg hs] at heq
                        exact ⟨hs2, heq⟩
                    obtain ⟨hstale, hfind⟩ := hsf
                    have hmem := (findActiveConversation_mem hfind).1
                    have hdbexp : dbAfterExpiry db phone now = db := by
                      unfold dbAfterExpiry
                      rw [hstale]
                      rfl
                    rw [hdbexp]
                    have hpre : ConvMapSpec db
                        (updateConv
                          (logSms db (some conv.id) phone .inbound text
                            (some raw))
                          conv.id (fun c => { c with last_inbound_at := now }))
                        conv.id conv.current_state :=
                      convMapSpec_updateConv_of db
                        (logSms db (some conv.id) phone .inbound text
                          (some raw))
                        rfl conv.id conv.current_state
                        (fun c => { c with last_inbound_at := now })
                        (fun c => rfl) (fun c => rfl) (fun c => Or.inl rfl)
                        (fun c => Or.inl rfl)
                    have htot := convMapSpec_trans hpre
                      (convSpec_dispatchState env _ conv text)
                    exact ⟨[], _, rfl,
                      convStep_of_mapSpec db _ conv hnd hmem htot, by simp⟩
  · intro path hp t ht r hr
    rcases okPath_required_mem path ConvState.awaiting_location_or_lot_code
        hp t ht r hr with h | h
    · exact h
    · exact absurd h (by simp [requiredBefore])

theorem c5_transitions_witness :
    ConvIdsNodup truckDb ∧
    ((∃ news rest,
      (handleIncomingSms emptyLotsEnv truckDb 0 "+15551234567" "2"
        "2").1.conversations = news ++ rest ∧
      List.Forall₂ convStepOk truckDb.conversations rest ∧
      ∀ c ∈ news, c.current_state = ConvState.awaiting_location_or_lot_code) ∧
    (∀ path : List ConvState,
      okPath ConvState.awaiting_location_or_lot_code path →
      ∀ t : ConvState, path.getLast? = some t →
      ∀ r ∈ requiredBefore t,
        r ∈ ConvState.awaiting_location_or_lot_code :: path)) :=
  ⟨by decide, c5_state_transitions_follow_table emptyLotsEnv truckDb 0
      "+15551234567" "2" "2" (by decide)⟩

/-! ## Counting lemmas for claim C4 -/

theorem countP_map_le (l : List Conversation) (f : Conversation → Conversation)
    (p : Conversation → Bool) (h : ∀ c ∈ l, p (f c) = true → p c = true) :
    (l.map f).countP p ≤ l.countP p := by
  induction l with
  | nil => simp
  | cons a t ih =>
    rw [List.map_cons, List.countP_cons, List.countP_cons]
    have ht := ih (fun c hc => h c (List.mem_cons_of_mem a hc))
    have hhd : (if p (f a) = true then 1 else 0) ≤
        (if p a = true then 1 else 0) := by
      by_cases ha : p (f a) = true
      · rw [if_pos ha, if_pos (h a (List.mem_cons_self a t) ha)]
      · rw [if_neg ha]
        exact Nat.zero_le _
    exact Nat.add_le_add ht hhd

theorem activeCount_deact_le (db : Db) (phone q : String) :
    activeCount (deactivateActiveConversations db phone) q ≤
      activeCount db q := by
  unfold activeCount deactivateActiveConversations
  dsimp only
  apply countP_map_le
  intro c _ hp
  unfold deactPatch at hp
  by_cases h : (c.phone == phone && c.is_active) = true
  · rw [if_pos h] at hp
    simp at hp
  · rwa [if_neg h] at hp

theorem activeCount_deact_self (db : Db) (phone : String) :
    activeCount (deactivateActiveConversations db phone) phone = 0 := by
  unfold activeCount deactivateActiveConversations
  dsimp only
  rw [List.countP_eq_zero]
  intro a ha
  rw [List.mem_map] at ha
  obtain ⟨c, _, rfl⟩ := ha
  unfold deactPatch
  by_cases h : (c.phone == phone && c.is_active) = true
  · rw [if_pos h]
    simp
  · rw [if_neg h]
    simpa using h

theorem activeCount_dbAfterExpiry_le (db : Db) (phone q : String) (now : Int) :
    activeCount (dbAfterExpiry db phone now) q ≤ activeCount db q := by
  unfold dbAfterExpiry
  split
  · exact activeCount_deact_le db phone q
  · exact le_refl _

theorem activeCount_zero_of_none {db : Db} {phone : String}
    (h : findActiveConversation db phone = none) :
    activeCount db phone = 0 := by
  unfold findActiveConversation at h
  rw [List.head?_eq_none_iff] at h
  unfold activeCount
  rw [List.countP_eq_zero]
  intro a ha hpa
  have hm : a ∈ db.conversations.filter
      (fun c => c.phone == phone && c.is_active) :=
    List.mem_filter.2 ⟨ha, hpa⟩
  rw [h] at hm
  exact absurd hm (List.not_mem_nil a)

theorem activeCount_mapSpec_le (db db2 : Db) (tid : Nat) (src : ConvState)
    (h : ConvMapSpec db db2 tid src) (q : String) :
    activeCount db2 q ≤ activeCount db q := by
  obtain ⟨f, h1, h2, h3, h4, h5⟩ := h
  unfold activeCount
  rw [h1]
  apply countP_map_le
  intro c _ hp
  rcases h5 c with ha | ha
  · rwa [(h2 c).2, ha] at hp
  · rw [(h2 c).2, ha] at hp
    simp at hp

theorem activeCount_bookBranch (db0 : Db) (hadConv : Bool)
    (phone text raw q : String) (now : Int) :
    activeCount (bookBranch db0 hadConv phone text raw now).1 q =
      activeCount
        (if hadConv then deactivateActiveConversations db0 phone else db0) q +
      (if (phone == q) = true then 1 else 0) := by
  unfold activeCount bookBranch
  dsimp only [mkNewConversation, logSms]
  rw [List.countP_cons]
  simp

theorem activeCount_book_tail_zero (db : Db) (phone : String) (now : Int) :
    activeCount
      (if (convAfterExpiry db phone now).isSome then
        deactivateActiveConversations (dbAfterExpiry db phone now) phone
      else dbAfterExpiry db phone now) phone = 0 := by
  split
  · exact activeCount_deact_self _ phone
  · rename_i h
    unfold convAfterExpiry at h
    unfold dbAfterExpiry
    by_cases hs : isStaleConv db phone now = true
    · rw [if_pos hs]
      exact activeCount_deact_self db phone
    · rw [if_neg hs]
      rw [if_neg hs] at h
      have hn : findActiveConversation db phone = none := by
        cases hfa : findActiveConversation db phone with
        | none => rfl
        | some c => rw [hfa] at h; simp at h
      exact activeCount_zero_of_none hn

/-- C4: if at most one active conversation per phone exists before a
request, the same holds after any single inbound-message request (every
branch of `handleIncomingSms`); and the BOOK branch deactivates every
previously active conversation of the sender before inserting the new
one, leaving exactly one active row for that phone. -/
theorem c4_single_active_conversation_invariant (env : Env) (db : Db)
    (now : Int) (phone text raw : String)
    (hinv : ∀ q, activeCount db q ≤ 1) :
    (∀ q, activeCount (handleIncomingSms env db now phone text raw).1 q ≤ 1) ∧
    (upperOf text = "BOOK" →
      activeCount (handleIncomingSms env db now phone text raw).1 phone
        = 1) := by
  constructor
  · intro q
    unfold handleIncomingSms
    split
    · exact hinv q
    · split
      · exact hinv q
      · split
        · exact hinv q
        · split
          · exact le_trans (activeCount_deact_le db phone q) (hinv q)
          · split
            · exact le_trans (activeCount_deact_le db phone q) (hinv q)
            · split
              · unfold supportBranch
                dsimp only
                split
                · exact hinv q
                · exact hinv q
              · split
                · rw [activeCount_bookBranch]
                  by_cases hpq : (phone == q) = true
                  · have hq : phone = q := eq_of_beq hpq
                    subst hq
                    rw [activeCount_book_tail_zero db phone now, if_pos hpq]
                  · rw [if_neg hpq, Nat.add_zero]
                    have h1 : activeCount
                        (if (convAfterExpiry db phone now).isSome then
                          deactivateActiveConversations
                            (dbAfterExpiry db phone now) phone
                        else dbAfterExpiry db phone now) q ≤
                        activeCount (dbAfterExpiry db phone now) q := by
                      split
                      · exact activeCount_deact_le _ phone q
                      · exact le_refl _
                    exact le_trans
                      (le_trans h1 (activeCount_dbAfterExpiry_le db phone q now))
                      (hinv q)
                · split
                  · exact le_trans (activeCount_dbAfterExpiry_le db phone q now)
                      (hinv q)
                  · rename_i conv heq
                    have hsf : isStaleConv db phone now = false ∧
                        findActiveConversation db phone = some conv := by
                      unfold convAfterExpiry at heq
                      by_cases hs : isStaleConv db phone now = true
                      · rw [if_pos hs] at heq; exact absurd heq (by simp)
                      · have hs2 : isStaleConv db phone now = false := by
                          simpa using hs
                        rw [if_neg hs] at heq
                        exact ⟨hs2, heq⟩
                    obtain ⟨hstale, hfind⟩ := hsf
                    have hdbexp : dbAfterExpiry db phone now = db := by
                      unfold dbAfterExpiry
                      rw [hstale]
                      rfl
                    rw [hdbexp]
                    have hpre : ConvMapSpec db
                        (updateConv
                          (logSms db (some conv.id) phone .inbound text
                            (some raw))
                          conv.id (fun c => { c with last_inbound_at := now }))
                        conv.id conv.current_state :=
                      convMapSpec_updateConv_of db
                        (logSms db (some conv.id) phone .inbound text
                          (some raw))
                        rfl conv.id conv.current_state
                        (fun c => { c with last_inbound_at := now })
                        (fun c => rfl) (fun c => rfl) (fun c => Or.inl rfl)
                        (fun c => Or.inl rfl)
                    have htot := convMapSpec_trans hpre
                      (convSpec_dispatchState env _ conv text)
                    exact le_trans
                      (activeCount_mapSpec_le db _ conv.id conv.current_state
                        htot q)
                      (hinv q)
  · intro hBOOK
    unfold handleIncomingSms
    rw [hBOOK]
    rw [if_neg (by decide), if_neg (by decide), if_neg (by decide),
        if_neg (by decide), if_neg (by decide), if_neg (by decide),
        if_pos rfl]
    rw [activeCount_bookBranch, activeCount_book_tail_zero db phone now]
    simp

theorem c4_single_active_witness :
    (∀ q, activeCount truckDb q ≤ 1) ∧
    ((∀ q, activeCount (handleIncomingSms emptyLotsEnv truckDb 0
        "+15551234567" "BOOK" "BOOK").1 q ≤ 1) ∧
     (upperOf "BOOK" = "BOOK" →
      activeCount (handleIncomingSms emptyLotsEnv truckDb 0 "+15551234567"
        "BOOK" "BOOK").1 "+15551234567" = 1)) :=
  ⟨fun q => le_trans (List.countP_le_length _) (by decide),
   c4_single_active_conversation_invariant emptyLotsEnv truckDb 0
     "+15551234567" "BOOK" "BOOK"
     (fun q => le_trans (List.countP_le_length _) (by decide))⟩

end OpenYard
